import Mathlib

/-! frida-clr: the native-handle lifecycle bridge of `Device` and `Session`.

A shallow embedding of `src/Device.cpp` and `src/Session.cpp`.

* Native pointers are natural numbers, `NULL` is `0`.
* Every wrapper method is a function from the wrapper's fields and the
  process-wide state `Env` to the fields and `Env` afterwards, together with
  either the returned value or the exception thrown (`Res`).
* What a native (`frida_*`) call answers is an argument of the method that
  makes the call, so every theorem holds for every answer of the native side.
* `Env.trace` records, oldest first, each call that leaves the wrapper.
-/

namespace Frida

/-! ## Basic types -/

/-- A native pointer (`FridaDevice *`, `FridaSession *`, ...). -/
abbrev Ptr := Nat

/-- The null pointer. -/
def NULL : Ptr := 0

/-- A managed object reference (`Device ^`, `Session ^`): the slot of the object in the heap. -/
abbrev ObjRef := Nat

/-- Identity of a thread of execution. -/
abbrev ThreadId := Nat

/-- A `System::Windows::Threading::Dispatcher`: the queue of the thread it belongs to. -/
structure Dispatcher where
  thread : ThreadId
deriving DecidableEq, Repr

/-- `Dispatcher::CheckAccess`: is the calling thread the thread of this dispatcher? -/
def Dispatcher.CheckAccess (d : Dispatcher) (caller : ThreadId) : Bool :=
  caller == d.thread

/-- `System::Windows::Threading::DispatcherPriority` (the values around `Normal`). -/
inductive DispatcherPriority where
  | Background
  | Input
  | Loaded
  | Render
  | DataBind
  | Normal
  | Send
deriving DecidableEq, Repr

/-- A `GError`: the native error signal. -/
structure GError where
  domain : Nat
  code : Int
  message : String
deriving DecidableEq, Repr

/-- The exceptions a wrapper method can leave with. -/
inductive Exn where
  /-- `throw gcnew ObjectDisposedException (objectName)` -/
  | ObjectDisposed (objectName : String)
  /-- Thrown by `Marshal::ThrowGErrorIfSet` for a set `GError`. -/
  | NativeOperationFailed (error : GError)
  /-- `g_assert_not_reached ()` -/
  | AssertNotReached
deriving DecidableEq, Repr

/-- `msclr::gcroot<T ^>`: a native cell that keeps a managed reference. -/
structure GcRoot where
  target : ObjRef
deriving DecidableEq, Repr

/-- The native callbacks handed to `g_signal_connect`. -/
inductive Callback where
  | OnDeviceLost
  | OnSessionDetached
  | OnScriptMessage
deriving DecidableEq, Repr

/-- An `EventHandler` delegate bound to a method of a wrapper. -/
inductive Delegate where
  /-- `gcnew EventHandler (this, &Device::OnLost)` -/
  | DeviceOnLost (target : ObjRef)
  /-- `gcnew EventHandler (this, &Session::OnDetached)` -/
  | SessionOnDetached (target : ObjRef)
deriving DecidableEq, Repr

/-- `System::EventArgs`; the only value in use is `EventArgs::Empty`. -/
inductive EventArgs where
  | Empty
deriving DecidableEq, Repr

/-- The events the wrappers expose. -/
inductive HostEvent where
  | Lost
  | Detached
deriving DecidableEq, Repr

/-- An `ImageSource ^` that is not `nullptr`. -/
structure ImageSource where
  bits : Nat
deriving DecidableEq, Repr

/-- The value of `frida_device_get_dtype`. -/
inductive FridaDeviceType where
  | FRIDA_DEVICE_TYPE_LOCAL
  | FRIDA_DEVICE_TYPE_TETHER
  | FRIDA_DEVICE_TYPE_REMOTE
  /-- Any other integer value of the C enumeration. -/
  | other (raw : Nat)
deriving DecidableEq, Repr

/-- The managed `DeviceType` enumeration. -/
inductive DeviceType where
  | Local
  | Tether
  | Remote
deriving DecidableEq, Repr

/-- A signal handler registered on a native object. -/
structure Connection where
  object : Ptr
  signal : String
  callback : Callback
  data : GcRoot
deriving DecidableEq, Repr

/-- A delegate invocation queued on a dispatcher by `BeginInvoke`. -/
structure WorkItem where
  dispatcher : Dispatcher
  priority : DispatcherPriority
  handler : Delegate
  sender : ObjRef
  args : EventArgs
deriving DecidableEq, Repr

/-- The calls that leave a wrapper, as recorded in `Env.trace`. -/
inductive Call where
  | Runtime_Ref
  | Runtime_Unref
  | new_gcroot (root : GcRoot)
  | delete_gcroot (root : GcRoot)
  | delete_icon (image : ImageSource)
  | g_signal_connect (object : Ptr) (signal : String) (callback : Callback) (data : GcRoot)
  | g_signal_handlers_disconnect_by_func (object : Ptr) (callback : Callback) (data : Option GcRoot)
  | g_object_unref (object : Ptr)
  | frida_device_get_id (handle : Ptr)
  | frida_device_get_name (handle : Ptr)
  | frida_device_get_icon (handle : Ptr)
  | frida_device_get_dtype (handle : Ptr)
  | frida_device_enumerate_processes_sync (handle : Ptr)
  | frida_device_spawn_sync (handle : Ptr) (path : String) (argv envp : List String)
  | frida_device_resume_sync (handle : Ptr) (pid : Nat)
  | frida_device_attach_sync (handle : Ptr) (pid : Nat)
  | frida_session_get_pid (handle : Ptr)
  | frida_session_detach_sync (handle : Ptr)
  | frida_session_create_script_sync (handle : Ptr) (name source : String)
  /-- The event is raised: its subscribers run, on thread `thread`. -/
  | raise (event : HostEvent) (sender : ObjRef) (args : EventArgs) (thread : ThreadId)
  | BeginInvoke (item : WorkItem)
deriving DecidableEq, Repr

/-- The state of the process outside the wrappers' own fields. -/
structure Env where
  /-- The counter behind `Runtime::Ref` and `Runtime::Unref`. -/
  activeRefs : Int
  /-- The signal handlers that are connected on native objects. -/
  connections : List Connection
  /-- The work items queued on dispatchers and not run yet, oldest first. -/
  queue : List WorkItem
  /-- Every call made so far, oldest first. -/
  trace : List Call
deriving DecidableEq, Repr

/-- The process before any wrapper exists. -/
def Env.init : Env :=
  { activeRefs := 0, connections := [], queue := [], trace := [] }

/-- Record a call. -/
def Env.log (env : Env) (c : Call) : Env :=
  { env with trace := env.trace ++ [c] }

/-- What a method call leaves behind: the fields of `this`, the process state,
and the value returned or the exception thrown. -/
structure Res (σ α : Type) where
  self : σ
  env : Env
  out : Except Exn α

/-! ## Collaborators outside `Device.cpp` and `Session.cpp` -/

/-- Modelled from the spec: `Runtime::Ref` (Runtime.cpp is missing). It increments
the process-wide counter `activeRefs` (spec 4.1, `Acquire`). -/
def Runtime.Ref (env : Env) : Env :=
  { env with activeRefs := env.activeRefs + 1, trace := env.trace ++ [Call.Runtime_Ref] }

/-- Modelled from the spec: `Runtime::Unref` (Runtime.cpp is missing). It decrements
the process-wide counter `activeRefs` (spec 4.1, `Release`). -/
def Runtime.Unref (env : Env) : Env :=
  { env with activeRefs := env.activeRefs - 1, trace := env.trace ++ [Call.Runtime_Unref] }

/-- Modelled from the spec: `Marshal::ThrowGErrorIfSet` (Marshal.cpp is missing).
A set native error signal becomes one thrown error that carries the native
domain, code and message; an unset one lets the caller go on (spec 4.4). -/
def Marshal.ThrowGErrorIfSet (error : Option GError) : Except Exn Unit :=
  match error with
  | some e => Except.error (Exn.NativeOperationFailed e)
  | none => Except.ok ()

/-- `new msclr::gcroot<T ^> (this)`: operator `new` never returns `NULL`. -/
def new_gcroot (this : ObjRef) (env : Env) : GcRoot × Env :=
  (⟨this⟩, env.log (Call.new_gcroot ⟨this⟩))

/-- `delete p` for a `gcroot` pointer: nothing happens for `NULL`. -/
def delete_gcroot (p : Option GcRoot) (env : Env) : Env :=
  match p with
  | some r => env.log (Call.delete_gcroot r)
  | none => env

/-- `delete icon` for an `ImageSource ^`: nothing happens for `nullptr`. -/
def delete_icon (icon : Option ImageSource) (env : Env) : Env :=
  match icon with
  | some i => env.log (Call.delete_icon i)
  | none => env

/-- `g_signal_connect (object, signal, callback, data)`. -/
def g_signal_connect (object : Ptr) (signal : String) (callback : Callback) (data : GcRoot)
    (env : Env) : Env :=
  { env with
    connections := env.connections ++ [⟨object, signal, callback, data⟩],
    trace := env.trace ++ [Call.g_signal_connect object signal callback data] }

/-- `g_signal_handlers_disconnect_by_func (object, func, data)`: every handler of
`object` with this callback and this data is disconnected. -/
def g_signal_handlers_disconnect_by_func (object : Ptr) (func : Callback) (data : Option GcRoot)
    (env : Env) : Env :=
  { env with
    connections := env.connections.filter
      (fun c => !(c.object == object && c.callback == func && some c.data == data)),
    trace := env.trace ++ [Call.g_signal_handlers_disconnect_by_func object func data] }

/-- `g_object_unref (object)`: the wrapper's reference to the native object is given up. -/
def g_object_unref (object : Ptr) (env : Env) : Env :=
  env.log (Call.g_object_unref object)

/-- Raising a host event on the calling thread. -/
def Env.raise (env : Env) (event : HostEvent) (sender : ObjRef) (args : EventArgs)
    (caller : ThreadId) : Env :=
  env.log (Call.raise event sender args caller)

/-- `dispatcher->BeginInvoke (priority, handler, sender, e)`: the invocation is queued
on the dispatcher and the call returns. -/
def Dispatcher.BeginInvoke (d : Dispatcher) (priority : DispatcherPriority) (handler : Delegate)
    (sender : ObjRef) (e : EventArgs) (env : Env) : Env :=
  { env with
    queue := env.queue ++ [⟨d, priority, handler, sender, e⟩],
    trace := env.trace ++ [Call.BeginInvoke ⟨d, priority, handler, sender, e⟩] }

/-- Sequencing inside a method body: an exception ends the method. -/
def Res.andThen {σ α β : Type} (r : Res σ α) (k : α → σ → Env → Res σ β) : Res σ β :=
  match r.out with
  | Except.error ex => ⟨r.self, r.env, Except.error ex⟩
  | Except.ok a => k a r.self r.env

/-- Does the method leave with `ObjectDisposedException`? -/
def Res.disposed {σ α : Type} (r : Res σ α) : Bool :=
  match r.out with
  | Except.error (Exn.ObjectDisposed _) => true
  | _ => false

/-! ## Session (Session.cpp) and what it creates -/

/-- Modelled from the spec: the fields of a `Script` wrapper (Script.hpp and Script.cpp
are missing); a `Script` is one more resource handle (spec 2 and 3). -/
structure Script where
  handle : Ptr
  dispatcher : Dispatcher
  selfHandle : Option GcRoot
deriving DecidableEq, Repr

/-- Modelled from the spec: the constructor `Script::Script` (Script.cpp is missing),
after spec 4.2 `Open`: acquire the runtime, create the self reference, register the
notification callback with the self reference as its context. -/
def Script.ctor (this : ObjRef) (handle : Ptr) (dispatcher : Dispatcher) (env : Env) :
    Script × Env :=
  let env := Runtime.Ref env
  let (root, env) := new_gcroot this env
  let env := g_signal_connect handle "message" Callback.OnScriptMessage root env
  ({ handle := handle, dispatcher := dispatcher, selfHandle := some root }, env)

/-- The fields of a `Session` wrapper. `onDetachedHandler` is assigned in the
constructor and never again. -/
structure Session where
  handle : Ptr
  dispatcher : Dispatcher
  selfHandle : Option GcRoot
  onDetachedHandler : Delegate
deriving DecidableEq, Repr

/-- `Session::Session (FridaSession * handle, Dispatcher ^ dispatcher)`; `this` is the
reference of the object under construction. -/
def Session.ctor (this : ObjRef) (handle : Ptr) (dispatcher : Dispatcher) (env : Env) :
    Session × Env :=
  let env := Runtime.Ref env
  let (root, env) := new_gcroot this env
  let onDetachedHandler := Delegate.SessionOnDetached this
  let env := g_signal_connect handle "detached" Callback.OnSessionDetached root env
  ({ handle := handle, dispatcher := dispatcher, selfHandle := some root,
     onDetachedHandler := onDetachedHandler }, env)

/-- `Session::!Session ()`, the finalizer. -/
def Session.Finalize (this : Session) (env : Env) : Session × Env :=
  if this.handle ≠ NULL then
    let env := g_object_unref this.handle env
    let this := { this with handle := NULL }
    let env := Runtime.Unref env
    (this, env)
  else
    (this, env)

/-- `Session::~Session ()`, the explicit disposal. -/
def Session.Dispose (this : Session) (env : Env) : Session × Env :=
  if this.handle = NULL then
    (this, env)
  else
    let env := g_signal_handlers_disconnect_by_func this.handle Callback.OnSessionDetached
      this.selfHandle env
    let env := delete_gcroot this.selfHandle env
    let this := { this with selfHandle := none }
    this.Finalize env

/-- `Session::Pid::get ()`; `pid` is what `frida_session_get_pid (handle)` answers. -/
def Session.get_Pid (this : Session) (pid : Nat) (env : Env) : Res Session Nat :=
  if this.handle = NULL then
    ⟨this, env, Except.error (Exn.ObjectDisposed "Session")⟩
  else
    ⟨this, env.log (Call.frida_session_get_pid this.handle), Except.ok pid⟩

/-- `Session::Detach ()`. -/
def Session.Detach (this : Session) (env : Env) : Res Session Unit :=
  if this.handle = NULL then
    ⟨this, env, Except.error (Exn.ObjectDisposed "Session")⟩
  else
    ⟨this, env.log (Call.frida_session_detach_sync this.handle), Except.ok ()⟩

/-- `Session::CreateScript (String ^ name, String ^ source)`; `script` and `error` are
what `frida_session_create_script_sync` answers, `fresh` is the reference that
`gcnew Script` allocates. -/
def Session.CreateScript (this : Session) (name source : String) (script : Ptr)
    (error : Option GError) (fresh : ObjRef) (env : Env) : Res Session (ObjRef × Script) :=
  if this.handle = NULL then
    ⟨this, env, Except.error (Exn.ObjectDisposed "Session")⟩
  else
    let env := env.log (Call.frida_session_create_script_sync this.handle name source)
    match Marshal.ThrowGErrorIfSet error with
    | Except.error ex => ⟨this, env, Except.error ex⟩
    | Except.ok () =>
      let (s, env) := Script.ctor fresh script this.dispatcher env
      ⟨this, env, Except.ok (fresh, s)⟩

/-- `Session::OnDetached (Object ^ sender, EventArgs ^ e)`, called on thread `caller`. -/
def Session.OnDetached (this : Session) (caller : ThreadId) (sender : ObjRef) (e : EventArgs)
    (env : Env) : Env :=
  if this.dispatcher.CheckAccess caller then
    env.raise HostEvent.Detached sender e caller
  else
    this.dispatcher.BeginInvoke DispatcherPriority.Normal this.onDetachedHandler sender e env

/-- `OnSessionDetached (FridaSession * session, gpointer user_data)`, the native
callback, entered on thread `caller`; `wrapper` is the object that the `gcroot`
behind `user_data` refers to. -/
def OnSessionDetached (session : Ptr) (user_data : GcRoot) (wrapper : Session)
    (caller : ThreadId) (env : Env) : Env :=
  wrapper.OnDetached caller user_data.target EventArgs.Empty env

/-! ## Device (Device.cpp) -/

/-- Modelled from the spec: a `Process` record (Process.hpp and Process.cpp are
missing): plain data made from one entry of the native process list (spec 4.5). -/
structure Process where
  handle : Ptr
deriving DecidableEq, Repr

/-- The fields of a `Device` wrapper. `icon = none` is `nullptr`; `onLostHandler` is
assigned in the constructor and never again. -/
structure Device where
  handle : Ptr
  dispatcher : Dispatcher
  icon : Option ImageSource
  selfHandle : Option GcRoot
  onLostHandler : Delegate
deriving DecidableEq, Repr

/-- `Device::Device (FridaDevice * handle, Dispatcher ^ dispatcher)`; `this` is the
reference of the object under construction. -/
def Device.ctor (this : ObjRef) (handle : Ptr) (dispatcher : Dispatcher) (env : Env) :
    Device × Env :=
  let env := Runtime.Ref env
  let (root, env) := new_gcroot this env
  let onLostHandler := Delegate.DeviceOnLost this
  let env := g_signal_connect handle "lost" Callback.OnDeviceLost root env
  ({ handle := handle, dispatcher := dispatcher, icon := none, selfHandle := some root,
     onLostHandler := onLostHandler }, env)

/-- `Device::!Device ()`, the finalizer. -/
def Device.Finalize (this : Device) (env : Env) : Device × Env :=
  if this.handle ≠ NULL then
    let env := g_object_unref this.handle env
    let this := { this with handle := NULL }
    let env := Runtime.Unref env
    (this, env)
  else
    (this, env)

/-- `Device::~Device ()`, the explicit disposal. -/
def Device.Dispose (this : Device) (env : Env) : Device × Env :=
  if this.handle = NULL then
    (this, env)
  else
    let env := delete_icon this.icon env
    let this := { this with icon := none }
    let env := g_signal_handlers_disconnect_by_func this.handle Callback.OnDeviceLost
      this.selfHandle env
    let env := delete_gcroot this.selfHandle env
    let this := { this with selfHandle := none }
    this.Finalize env

/-- `Device::Id::get ()`; `id` is the string behind `frida_device_get_id (handle)`. -/
def Device.get_Id (this : Device) (id : String) (env : Env) : Res Device String :=
  if this.handle = NULL then
    ⟨this, env, Except.error (Exn.ObjectDisposed "Device")⟩
  else
    ⟨this, env.log (Call.frida_device_get_id this.handle), Except.ok id⟩

/-- `Device::Name::get ()`; `name` is the string behind `frida_device_get_name (handle)`. -/
def Device.get_Name (this : Device) (name : String) (env : Env) : Res Device String :=
  if this.handle = NULL then
    ⟨this, env, Except.error (Exn.ObjectDisposed "Device")⟩
  else
    ⟨this, env.log (Call.frida_device_get_name this.handle), Except.ok name⟩

/-- `Device::Icon::get ()`; `converted` is the value of
`Marshal::FridaIconToImageSource (frida_device_get_icon (handle))` if it is evaluated in
this call (`none` is `nullptr`). -/
def Device.get_Icon (this : Device) (converted : Option ImageSource) (env : Env) :
    Res Device (Option ImageSource) :=
  if this.handle = NULL then
    ⟨this, env, Except.error (Exn.ObjectDisposed "Device")⟩
  else if this.icon = none then
    let env := env.log (Call.frida_device_get_icon this.handle)
    let this := { this with icon := converted }
    ⟨this, env, Except.ok this.icon⟩
  else
    ⟨this, env, Except.ok this.icon⟩

/-- `Device::Type::get ()`; `dtype` is what `frida_device_get_dtype (handle)` answers. -/
def Device.get_Type (this : Device) (dtype : FridaDeviceType) (env : Env) :
    Res Device DeviceType :=
  if this.handle = NULL then
    ⟨this, env, Except.error (Exn.ObjectDisposed "Device")⟩
  else
    let env := env.log (Call.frida_device_get_dtype this.handle)
    match dtype with
    | FridaDeviceType.FRIDA_DEVICE_TYPE_LOCAL => ⟨this, env, Except.ok DeviceType.Local⟩
    | FridaDeviceType.FRIDA_DEVICE_TYPE_TETHER => ⟨this, env, Except.ok DeviceType.Tether⟩
    | FridaDeviceType.FRIDA_DEVICE_TYPE_REMOTE => ⟨this, env, Except.ok DeviceType.Remote⟩
    | FridaDeviceType.other _ => ⟨this, env, Except.error Exn.AssertNotReached⟩

/-- `Device::EnumerateProcesses ()`; `result`, `items` and `error` are what
`frida_device_enumerate_processes_sync` answers: the list object, its entries in
order, and the error signal. -/
def Device.EnumerateProcesses (this : Device) (result : Ptr) (items : List Ptr)
    (error : Option GError) (env : Env) : Res Device (List Process) :=
  if this.handle = NULL then
    ⟨this, env, Except.error (Exn.ObjectDisposed "Device")⟩
  else
    let env := env.log (Call.frida_device_enumerate_processes_sync this.handle)
    match Marshal.ThrowGErrorIfSet error with
    | Except.error ex => ⟨this, env, Except.error ex⟩
    | Except.ok () =>
      let processes := items.map (fun p => Process.mk p)
      let env := g_object_unref result env
      ⟨this, env, Except.ok processes⟩

/-- `Device::Spawn (String ^ path, array<String ^> ^ argv, array<String ^> ^ envp)`;
`pid` and `error` are what `frida_device_spawn_sync` answers. -/
def Device.Spawn (this : Device) (path : String) (argv envp : List String) (pid : Nat)
    (error : Option GError) (env : Env) : Res Device Nat :=
  if this.handle = NULL then
    ⟨this, env, Except.error (Exn.ObjectDisposed "Device")⟩
  else
    let env := env.log (Call.frida_device_spawn_sync this.handle path argv envp)
    match Marshal.ThrowGErrorIfSet error with
    | Except.error ex => ⟨this, env, Except.error ex⟩
    | Except.ok () => ⟨this, env, Except.ok pid⟩

/-- `Device::Resume (unsigned int pid)`; `error` is what `frida_device_resume_sync` sets. -/
def Device.Resume (this : Device) (pid : Nat) (error : Option GError) (env : Env) :
    Res Device Unit :=
  if this.handle = NULL then
    ⟨this, env, Except.error (Exn.ObjectDisposed "Device")⟩
  else
    let env := env.log (Call.frida_device_resume_sync this.handle pid)
    match Marshal.ThrowGErrorIfSet error with
    | Except.error ex => ⟨this, env, Except.error ex⟩
    | Except.ok () => ⟨this, env, Except.ok ()⟩

/-- `Device::Attach (unsigned int pid)`; `session` and `error` are what
`frida_device_attach_sync` answers, `fresh` is the reference that `gcnew Session`
allocates. -/
def Device.Attach (this : Device) (pid : Nat) (session : Ptr) (error : Option GError)
    (fresh : ObjRef) (env : Env) : Res Device (ObjRef × Session) :=
  if this.handle = NULL then
    ⟨this, env, Except.error (Exn.ObjectDisposed "Device")⟩
  else
    let env := env.log (Call.frida_device_attach_sync this.handle pid)
    match Marshal.ThrowGErrorIfSet error with
    | Except.error ex => ⟨this, env, Except.error ex⟩
    | Except.ok () =>
      let (s, env) := Session.ctor fresh session this.dispatcher env
      ⟨this, env, Except.ok (fresh, s)⟩

/-- The name a boxed `DeviceType` is formatted as. -/
def DeviceType.format : DeviceType → String
  | DeviceType.Local => "Local"
  | DeviceType.Tether => "Tether"
  | DeviceType.Remote => "Remote"

/-- `Device::ToString ()`: the three properties are read through their getters;
`id`, `name` and `dtype` are the native answers those getters receive. -/
def Device.ToString (this : Device) (id name : String) (dtype : FridaDeviceType) (env : Env) :
    Res Device String :=
  if this.handle = NULL then
    ⟨this, env, Except.error (Exn.ObjectDisposed "Device")⟩
  else
    (this.get_Id id env).andThen fun i this env =>
    (this.get_Name name env).andThen fun n this env =>
    (this.get_Type dtype env).andThen fun t this env =>
    ⟨this, env, Except.ok ("Id: \"" ++ i ++ "\", Name: \"" ++ n ++ "\", Type: " ++ t.format)⟩

/-- `Device::OnLost (Object ^ sender, EventArgs ^ e)`, called on thread `caller`. -/
def Device.OnLost (this : Device) (caller : ThreadId) (sender : ObjRef) (e : EventArgs)
    (env : Env) : Env :=
  if this.dispatcher.CheckAccess caller then
    env.raise HostEvent.Lost sender e caller
  else
    this.dispatcher.BeginInvoke DispatcherPriority.Normal this.onLostHandler sender e env

/-- `OnDeviceLost (FridaDevice * device, gpointer user_data)`, the native callback,
entered on thread `caller`; `wrapper` is the object that the `gcroot` behind
`user_data` refers to. -/
def OnDeviceLost (device : Ptr) (user_data : GcRoot) (wrapper : Device)
    (caller : ThreadId) (env : Env) : Env :=
  wrapper.OnLost caller user_data.target EventArgs.Empty env

/-! ## The dispatcher runs a queued item -/

/-- The dispatcher takes a queued invocation of `onLostHandler` and calls the delegate
on its own thread with the queued arguments; `target` is the wrapper the delegate is
bound to. -/
def Device.Invoke (target : Device) (item : WorkItem) (env : Env) : Env :=
  target.OnLost item.dispatcher.thread item.sender item.args
    { env with queue := env.queue.erase item }

/-- The dispatcher takes a queued invocation of `onDetachedHandler` and calls the
delegate on its own thread with the queued arguments; `target` is the wrapper the
delegate is bound to. -/
def Session.Invoke (target : Session) (item : WorkItem) (env : Env) : Env :=
  target.OnDetached item.dispatcher.thread item.sender item.args
    { env with queue := env.queue.erase item }

/-! ## Teardown sequences -/

/-- The two teardown paths of a wrapper. -/
inductive Teardown where
  /-- `~Device ()` or `~Session ()` -/
  | Dispose
  /-- `!Device ()` or `!Session ()` run on its own -/
  | Finalize
deriving DecidableEq, Repr

/-- One teardown of a `Device`. -/
def Device.teardown (t : Teardown) (s : Device × Env) : Device × Env :=
  match t with
  | Teardown.Dispose => s.1.Dispose s.2
  | Teardown.Finalize => s.1.Finalize s.2

/-- Teardowns of a `Device` one after the other. -/
def Device.teardowns (ts : List Teardown) (s : Device × Env) : Device × Env :=
  ts.foldl (fun s t => Device.teardown t s) s

/-- One teardown of a `Session`. -/
def Session.teardown (t : Teardown) (s : Session × Env) : Session × Env :=
  match t with
  | Teardown.Dispose => s.1.Dispose s.2
  | Teardown.Finalize => s.1.Finalize s.2

/-- Teardowns of a `Session` one after the other. -/
def Session.teardowns (ts : List Teardown) (s : Session × Env) : Session × Env :=
  ts.foldl (fun s t => Session.teardown t s) s

/-- Is the call a release of a native object (`g_object_unref`)? -/
def Call.isRelease : Call → Bool
  | Call.g_object_unref _ => true
  | _ => false

/-- How often `g_object_unref` was called. -/
def released (trace : List Call) : Nat :=
  trace.countP Call.isRelease

/-- How often `Runtime::Unref` was called. -/
def unrefs (trace : List Call) : Nat :=
  trace.count Call.Runtime_Unref

/-- How often the native icon getter was called. -/
def iconCalls (trace : List Call) : Nat :=
  trace.countP (fun c => match c with
    | Call.frida_device_get_icon _ => true
    | _ => false)

/-! ## The public surface as data -/

/-- Forget the returned value: what is left is the state and whether an exception
was thrown. -/
def Res.void {σ α : Type} (r : Res σ α) : Res σ Unit :=
  ⟨r.self, r.env, r.out.map (fun _ => ())⟩

/-- A call of one public member of `Device`, with its arguments and with the answers
of the native side. -/
inductive DeviceOp where
  | Id (id : String)
  | Name (name : String)
  | Icon (converted : Option ImageSource)
  | Type (dtype : FridaDeviceType)
  | EnumerateProcesses (result : Ptr) (items : List Ptr) (error : Option GError)
  | Spawn (path : String) (argv envp : List String) (pid : Nat) (error : Option GError)
  | Resume (pid : Nat) (error : Option GError)
  | Attach (pid : Nat) (session : Ptr) (error : Option GError) (fresh : ObjRef)
  | ToString (id name : String) (dtype : FridaDeviceType)

/-- Run one public member of `Device`. -/
def Device.perform (this : Device) (op : DeviceOp) (env : Env) : Res Device Unit :=
  match op with
  | DeviceOp.Id id => (this.get_Id id env).void
  | DeviceOp.Name name => (this.get_Name name env).void
  | DeviceOp.Icon converted => (this.get_Icon converted env).void
  | DeviceOp.Type dtype => (this.get_Type dtype env).void
  | DeviceOp.EnumerateProcesses result items error =>
    (this.EnumerateProcesses result items error env).void
  | DeviceOp.Spawn path argv envp pid error => (this.Spawn path argv envp pid error env).void
  | DeviceOp.Resume pid error => (this.Resume pid error env).void
  | DeviceOp.Attach pid session error fresh => (this.Attach pid session error fresh env).void
  | DeviceOp.ToString id name dtype => (this.ToString id name dtype env).void

/-- A call of one public member of `Session`, with its arguments and with the answers
of the native side. -/
inductive SessionOp where
  | Pid (pid : Nat)
  | Detach
  | CreateScript (name source : String) (script : Ptr) (error : Option GError) (fresh : ObjRef)

/-- Run one public member of `Session`. -/
def Session.perform (this : Session) (op : SessionOp) (env : Env) : Res Session Unit :=
  match op with
  | SessionOp.Pid pid => (this.get_Pid pid env).void
  | SessionOp.Detach => (this.Detach env).void
  | SessionOp.CreateScript name source script error fresh =>
    (this.CreateScript name source script error fresh env).void

/-- Reads of `Device.Icon` one after the other; `answers` holds, for each read, what the
native getter and the conversion would produce in that read. The values the reads
return come back oldest first. -/
def Device.readIcons (answers : List (Option ImageSource)) (this : Device) (env : Env) :
    List (Except Exn (Option ImageSource)) × Device × Env :=
  match answers with
  | [] => ([], this, env)
  | a :: rest =>
    let r := this.get_Icon a env
    let k := Device.readIcons rest r.self r.env
    (r.out :: k.1, k.2)

/-- The work item `Device::OnLost` hands to `BeginInvoke`. -/
def Device.lostItem (this : Device) (sender : ObjRef) (e : EventArgs) : WorkItem :=
  ⟨this.dispatcher, DispatcherPriority.Normal, this.onLostHandler, sender, e⟩

/-- The work item `Session::OnDetached` hands to `BeginInvoke`. -/
def Session.detachedItem (this : Session) (sender : ObjRef) (e : EventArgs) : WorkItem :=
  ⟨this.dispatcher, DispatcherPriority.Normal, this.onDetachedHandler, sender, e⟩

/-- Record several calls, oldest first. -/
def Env.logAll (env : Env) (cs : List Call) : Env :=
  { env with trace := env.trace ++ cs }

/-! ## Several wrappers in one process -/

/-- A managed object on the heap. -/
inductive Obj where
  | device (d : Device)
  | session (s : Session)
deriving DecidableEq, Repr

/-- The native pointer an object holds. -/
def Obj.handle : Obj → Ptr
  | Obj.device d => d.handle
  | Obj.session s => s.handle

/-- Is the handle of the object set? -/
def Obj.live (o : Obj) : Bool :=
  o.handle != NULL

/-- One teardown of an object: the destructor or finalizer of its own class runs. -/
def Obj.teardown (t : Teardown) (o : Obj) (env : Env) : Obj × Env :=
  match o with
  | Obj.device d => (Obj.device (Device.teardown t (d, env)).1, (Device.teardown t (d, env)).2)
  | Obj.session s => (Obj.session (Session.teardown t (s, env)).1, (Session.teardown t (s, env)).2)

/-- The process: the state outside the wrappers and the wrappers themselves; an object
reference is the position of the object in `heap`. -/
structure World where
  env : Env
  heap : List Obj
deriving DecidableEq, Repr

/-- The process at start: the counter is 0 and no wrapper exists. -/
def World.init : World :=
  ⟨Env.init, []⟩

/-- The operations that open and close wrappers. -/
inductive LifecycleOp where
  /-- `gcnew Device (handle, dispatcher)` -/
  | newDevice (handle : Ptr) (dispatcher : Dispatcher)
  /-- `gcnew Session (handle, dispatcher)` -/
  | newSession (handle : Ptr) (dispatcher : Dispatcher)
  /-- Explicit disposal or a finalizer run of the wrapper behind reference `r`. -/
  | teardown (t : Teardown) (r : ObjRef)
deriving DecidableEq, Repr

/-- One operation; a teardown through a reference that names no object does nothing. -/
def World.step (w : World) (op : LifecycleOp) : World :=
  match op with
  | LifecycleOp.newDevice handle dispatcher =>
    ⟨(Device.ctor w.heap.length handle dispatcher w.env).2,
      w.heap ++ [Obj.device (Device.ctor w.heap.length handle dispatcher w.env).1]⟩
  | LifecycleOp.newSession handle dispatcher =>
    ⟨(Session.ctor w.heap.length handle dispatcher w.env).2,
      w.heap ++ [Obj.session (Session.ctor w.heap.length handle dispatcher w.env).1]⟩
  | LifecycleOp.teardown t r =>
    match w.heap[r]? with
    | some o => ⟨(o.teardown t w.env).2, w.heap.set r (o.teardown t w.env).1⟩
    | none => w

/-- Operations one after the other. -/
def World.run (ops : List LifecycleOp) (w : World) : World :=
  ops.foldl World.step w

/-- Does the operation construct a wrapper? -/
def LifecycleOp.isNew : LifecycleOp → Bool
  | LifecycleOp.newDevice _ _ => true
  | LifecycleOp.newSession _ _ => true
  | LifecycleOp.teardown _ _ => false

/-- The number of wrappers a sequence constructs. -/
def constructed (ops : List LifecycleOp) : Nat :=
  ops.countP LifecycleOp.isNew

/-- Is the native pointer a constructor is given non-null? (Teardowns pass.) -/
def LifecycleOp.opensOwned : LifecycleOp → Bool
  | LifecycleOp.newDevice handle _ => handle != NULL
  | LifecycleOp.newSession handle _ => handle != NULL
  | LifecycleOp.teardown _ _ => true

/-- Does the sequence hold a teardown of wrapper `r` at a point where `r` has been
constructed? `n` is the number of wrappers that exist before the sequence. -/
def closedIn (ops : List LifecycleOp) (n : Nat) (r : ObjRef) : Bool :=
  match ops with
  | [] => false
  | LifecycleOp.teardown _ r1 :: rest => (r1 == r && decide (r < n)) || closedIn rest n r
  | _ :: rest => closedIn rest (n + 1) r

/-- `Device::Attach` called through reference `r`: the new `Session`, when there is one,
goes on the heap. `none` when `r` is not a `Device`. -/
def World.attach (w : World) (r : ObjRef) (pid : Nat) (session : Ptr) (error : Option GError) :
    Option (World × Except Exn ObjRef) :=
  match w.heap[r]? with
  | some (Obj.device d) =>
    match (d.Attach pid session error w.heap.length w.env).out with
    | Except.ok (ref, s) =>
      some (⟨(d.Attach pid session error w.heap.length w.env).env,
        (w.heap.set r (Obj.device (d.Attach pid session error w.heap.length w.env).self)) ++
          [Obj.session s]⟩, Except.ok ref)
    | Except.error ex =>
      some (⟨(d.Attach pid session error w.heap.length w.env).env,
        w.heap.set r (Obj.device (d.Attach pid session error w.heap.length w.env).self)⟩,
        Except.error ex)
  | _ => none

/-! # Properties -/

/-! ## Lemmas on teardown -/

theorem Device.device_teardown_dead (t : Teardown) (d : Device) (env : Env) (h : d.handle = NULL) :
    Device.teardown t (d, env) = (d, env) := by
  cases t <;> simp [Device.teardown, Device.Dispose, Device.Finalize, h]

theorem Device.device_teardown_handle (t : Teardown) (d : Device) (env : Env) :
    (Device.teardown t (d, env)).1.handle = NULL := by
  cases t <;> by_cases h : d.handle = NULL <;>
    simp [Device.teardown, Device.Dispose, Device.Finalize, h]

theorem Device.device_teardowns_dead (ts : List Teardown) (d : Device) (env : Env)
    (h : d.handle = NULL) : Device.teardowns ts (d, env) = (d, env) := by
  induction ts with
  | nil => rfl
  | cons t ts ih =>
    simp only [Device.teardowns, List.foldl_cons] at ih ⊢
    rw [Device.device_teardown_dead t d env h]
    exact ih

theorem Device.device_teardowns_cons (t : Teardown) (ts : List Teardown) (s : Device × Env) :
    Device.teardowns (t :: ts) s = Device.teardown t s := by
  have h := Device.device_teardown_handle t s.1 s.2
  show Device.teardowns ts (Device.teardown t s) = Device.teardown t s
  exact Device.device_teardowns_dead ts _ _ h

theorem Session.session_teardown_dead (t : Teardown) (d : Session) (env : Env) (h : d.handle = NULL) :
    Session.teardown t (d, env) = (d, env) := by
  cases t <;> simp [Session.teardown, Session.Dispose, Session.Finalize, h]

theorem Session.session_teardown_handle (t : Teardown) (d : Session) (env : Env) :
    (Session.teardown t (d, env)).1.handle = NULL := by
  cases t <;> by_cases h : d.handle = NULL <;>
    simp [Session.teardown, Session.Dispose, Session.Finalize, h]

theorem Session.session_teardowns_dead (ts : List Teardown) (d : Session) (env : Env)
    (h : d.handle = NULL) : Session.teardowns ts (d, env) = (d, env) := by
  induction ts with
  | nil => rfl
  | cons t ts ih =>
    simp only [Session.teardowns, List.foldl_cons] at ih ⊢
    rw [Session.session_teardown_dead t d env h]
    exact ih

theorem Session.session_teardowns_cons (t : Teardown) (ts : List Teardown) (s : Session × Env) :
    Session.teardowns (t :: ts) s = Session.teardown t s := by
  have h := Session.session_teardown_handle t s.1 s.2
  show Session.teardowns ts (Session.teardown t s) = Session.teardown t s
  exact Session.session_teardowns_dead ts _ _ h

theorem Device.device_teardown_counts (t : Teardown) (d : Device) (env : Env) (h : d.handle ≠ NULL) :
    released (Device.teardown t (d, env)).2.trace = released env.trace + 1 ∧
    unrefs (Device.teardown t (d, env)).2.trace = unrefs env.trace + 1 ∧
    (Device.teardown t (d, env)).2.activeRefs = env.activeRefs - 1 := by
  cases t <;> cases hi : d.icon <;> cases hs : d.selfHandle <;>
    simp [Device.teardown, Device.Dispose, Device.Finalize, h, hi, hs, released, unrefs,
      g_object_unref, Runtime.Unref, Env.log, delete_icon, delete_gcroot,
      g_signal_handlers_disconnect_by_func, Call.isRelease, List.countP_append,
      List.count_append, List.countP_cons, List.count_cons]

theorem Session.session_teardown_counts (t : Teardown) (d : Session) (env : Env) (h : d.handle ≠ NULL) :
    released (Session.teardown t (d, env)).2.trace = released env.trace + 1 ∧
    unrefs (Session.teardown t (d, env)).2.trace = unrefs env.trace + 1 ∧
    (Session.teardown t (d, env)).2.activeRefs = env.activeRefs - 1 := by
  cases t <;> cases hs : d.selfHandle <;>
    simp [Session.teardown, Session.Dispose, Session.Finalize, h, hs, released, unrefs,
      g_object_unref, Runtime.Unref, Env.log, delete_gcroot,
      g_signal_handlers_disconnect_by_func, Call.isRelease, List.countP_append,
      List.count_append, List.countP_cons, List.count_cons]

/-! ## Teardown: idempotence, order, and the finalizer on its own -/

/-- C2: Close is idempotent for `Device` and `Session`. For every wrapper state, after a
first teardown of either kind (explicit disposal or finalizer) any further teardowns of
either kind leave the wrapper and the process exactly as the first teardown left them
(the teardown methods have no exception to raise); over the whole sequence a wrapper
that was live is released with `g_object_unref` exactly once and `Runtime::Unref` is
called exactly once, and a wrapper that was already torn down is released no further
time. -/
theorem close_idempotent (d : Device) (s : Session) (env : Env) (t : Teardown)
    (ts : List Teardown) :
    (Device.teardowns (t :: ts) (d, env) = Device.teardown t (d, env) ∧
      released (Device.teardowns (t :: ts) (d, env)).2.trace =
        released env.trace + (if d.handle = NULL then 0 else 1) ∧
      unrefs (Device.teardowns (t :: ts) (d, env)).2.trace =
        unrefs env.trace + (if d.handle = NULL then 0 else 1) ∧
      (Device.teardowns (t :: ts) (d, env)).2.activeRefs =
        env.activeRefs - (if d.handle = NULL then 0 else 1)) ∧
    (Session.teardowns (t :: ts) (s, env) = Session.teardown t (s, env) ∧
      released (Session.teardowns (t :: ts) (s, env)).2.trace =
        released env.trace + (if s.handle = NULL then 0 else 1) ∧
      unrefs (Session.teardowns (t :: ts) (s, env)).2.trace =
        unrefs env.trace + (if s.handle = NULL then 0 else 1) ∧
      (Session.teardowns (t :: ts) (s, env)).2.activeRefs =
        env.activeRefs - (if s.handle = NULL then 0 else 1)) := by
  refine ⟨?_, ?_⟩
  · rw [Device.device_teardowns_cons]
    refine ⟨rfl, ?_⟩
    by_cases h : d.handle = NULL
    · simp [Device.device_teardown_dead t d env h, h]
    · simpa [h] using Device.device_teardown_counts t d env h
  · rw [Session.session_teardowns_cons]
    refine ⟨rfl, ?_⟩
    by_cases h : s.handle = NULL
    · simp [Session.session_teardown_dead t s env h, h]
    · simpa [h] using Session.session_teardown_counts t s env h

/-- C10: explicit teardown of a live wrapper, whose self reference is `root`, makes these
calls in this order, each once: disconnect the notification callback from the native
handle, delete the self reference, `g_object_unref` the native pointer, `Runtime::Unref`
(for a `Device` the cached icon, when there is one, is deleted before them); the self
reference field is null before the finalization step runs on the still set handle, and
the wrapper ends with `handle == NULL`. On a wrapper whose handle is already null
nothing happens. -/
theorem explicit_teardown_order (d : Device) (s : Session) (env : Env) :
    (∀ root, d.handle ≠ NULL → d.selfHandle = some root →
      (d.Dispose env).2.trace =
        env.trace ++ (match d.icon with | some i => [Call.delete_icon i] | none => []) ++
          [Call.g_signal_handlers_disconnect_by_func d.handle Callback.OnDeviceLost (some root),
           Call.delete_gcroot root, Call.g_object_unref d.handle, Call.Runtime_Unref] ∧
      d.Dispose env =
        Device.Finalize { d with icon := none, selfHandle := none }
          (delete_gcroot (some root) (g_signal_handlers_disconnect_by_func d.handle
            Callback.OnDeviceLost (some root) (delete_icon d.icon env))) ∧
      (d.Dispose env).1 = { d with handle := NULL, icon := none, selfHandle := none } ∧
      (d.Dispose env).2.activeRefs = env.activeRefs - 1 ∧
      (∀ c ∈ (d.Dispose env).2.connections,
        ¬ (c.object = d.handle ∧ c.callback = Callback.OnDeviceLost ∧ c.data = root))) ∧
    (d.handle = NULL → d.Dispose env = (d, env)) ∧
    (∀ root, s.handle ≠ NULL → s.selfHandle = some root →
      (s.Dispose env).2.trace =
        env.trace ++
          [Call.g_signal_handlers_disconnect_by_func s.handle Callback.OnSessionDetached
             (some root),
           Call.delete_gcroot root, Call.g_object_unref s.handle, Call.Runtime_Unref] ∧
      s.Dispose env =
        Session.Finalize { s with selfHandle := none }
          (delete_gcroot (some root) (g_signal_handlers_disconnect_by_func s.handle
            Callback.OnSessionDetached (some root) env)) ∧
      (s.Dispose env).1 = { s with handle := NULL, selfHandle := none } ∧
      (s.Dispose env).2.activeRefs = env.activeRefs - 1 ∧
      (∀ c ∈ (s.Dispose env).2.connections,
        ¬ (c.object = s.handle ∧ c.callback = Callback.OnSessionDetached ∧ c.data = root))) ∧
    (s.handle = NULL → s.Dispose env = (s, env)) := by
  refine ⟨?_, ?_, ?_, ?_⟩
  · intro root h hs
    cases hi : d.icon <;>
      simp [Device.Dispose, Device.Finalize, h, hs, hi, g_object_unref, Runtime.Unref, Env.log,
        delete_icon, delete_gcroot, g_signal_handlers_disconnect_by_func] <;>
      intro c _ hc h1 h2 h3 <;> simp [h1, h2, h3] at hc
  · intro h
    simp [Device.Dispose, h]
  · intro root h hs
    simp [Session.Dispose, Session.Finalize, h, hs, g_object_unref, Runtime.Unref, Env.log,
      delete_gcroot, g_signal_handlers_disconnect_by_func]
    intro c _ hc h1 h2 h3
    simp [h1, h2, h3] at hc
  · intro h
    simp [Session.Dispose, h]

/-- C10, at a wrapper with a cached icon and at a fresh session. -/
theorem explicit_teardown_order_witness :
    (Device.Dispose ⟨7, ⟨1⟩, some ⟨5⟩, some ⟨0⟩, Delegate.DeviceOnLost 0⟩ Env.init).2.trace =
      [Call.delete_icon ⟨5⟩,
       Call.g_signal_handlers_disconnect_by_func 7 Callback.OnDeviceLost (some ⟨0⟩),
       Call.delete_gcroot ⟨0⟩, Call.g_object_unref 7, Call.Runtime_Unref] ∧
    Device.Dispose ⟨NULL, ⟨1⟩, none, none, Delegate.DeviceOnLost 0⟩ Env.init =
      (⟨NULL, ⟨1⟩, none, none, Delegate.DeviceOnLost 0⟩, Env.init) ∧
    (Session.Dispose ⟨9, ⟨1⟩, some ⟨3⟩, Delegate.SessionOnDetached 3⟩ Env.init).2.trace =
      [Call.g_signal_handlers_disconnect_by_func 9 Callback.OnSessionDetached (some ⟨3⟩),
       Call.delete_gcroot ⟨3⟩, Call.g_object_unref 9, Call.Runtime_Unref] ∧
    Session.Dispose ⟨NULL, ⟨1⟩, none, Delegate.SessionOnDetached 3⟩ Env.init =
      (⟨NULL, ⟨1⟩, none, Delegate.SessionOnDetached 3⟩, Env.init) :=
  have h := explicit_teardown_order ⟨7, ⟨1⟩, some ⟨5⟩, some ⟨0⟩, Delegate.DeviceOnLost 0⟩
    ⟨9, ⟨1⟩, some ⟨3⟩, Delegate.SessionOnDetached 3⟩ Env.init
  have h0 := explicit_teardown_order ⟨NULL, ⟨1⟩, none, none, Delegate.DeviceOnLost 0⟩
    ⟨NULL, ⟨1⟩, none, Delegate.SessionOnDetached 3⟩ Env.init
  ⟨(h.1 ⟨0⟩ (by decide) rfl).1, h0.2.1 rfl, (h.2.2.1 ⟨3⟩ (by decide) rfl).1, h0.2.2.2 rfl⟩

/-- C4, the finalizer on its own: `!Device ()` and `!Session ()` run on a freshly
constructed wrapper release the native pointer and null the handle while `selfHandle`
is still set, the callback is still connected, and no disconnect or delete of the self
reference was ever called; an explicit disposal afterwards changes nothing. -/
theorem finalizer_alone_keeps_selfHandle :
    (let c := Device.ctor 0 7 ⟨1⟩ Env.init
     let f := Device.Finalize c.1 c.2
     f.1.handle = NULL ∧ f.1.selfHandle = some ⟨0⟩ ∧
     f.2.connections = [⟨7, "lost", Callback.OnDeviceLost, ⟨0⟩⟩] ∧
     f.2.trace = [Call.Runtime_Ref, Call.new_gcroot ⟨0⟩,
       Call.g_signal_connect 7 "lost" Callback.OnDeviceLost ⟨0⟩,
       Call.g_object_unref 7, Call.Runtime_Unref] ∧
     Device.Dispose f.1 f.2 = f) ∧
    (let c := Session.ctor 0 9 ⟨1⟩ Env.init
     let f := Session.Finalize c.1 c.2
     f.1.handle = NULL ∧ f.1.selfHandle = some ⟨0⟩ ∧
     f.2.connections = [⟨9, "detached", Callback.OnSessionDetached, ⟨0⟩⟩] ∧
     f.2.trace = [Call.Runtime_Ref, Call.new_gcroot ⟨0⟩,
       Call.g_signal_connect 9 "detached" Callback.OnSessionDetached ⟨0⟩,
       Call.g_object_unref 9, Call.Runtime_Unref] ∧
     Session.Dispose f.1 f.2 = f) := by
  refine ⟨?_, ?_⟩
  · simp [Device.ctor, Device.Finalize, Device.Dispose, new_gcroot, g_signal_connect,
      g_object_unref, Runtime.Ref, Runtime.Unref, Env.log, Env.init, NULL]
  · simp [Session.ctor, Session.Finalize, Session.Dispose, new_gcroot, g_signal_connect,
      g_object_unref, Runtime.Ref, Runtime.Unref, Env.log, Env.init, NULL]

/-! ## The disposed check -/

theorem Device.device_perform_dead (d : Device) (env : Env) (op : DeviceOp) (h : d.handle = NULL) :
    (d.perform op env).out = Except.error (Exn.ObjectDisposed "Device") ∧
    (d.perform op env).self = d ∧ (d.perform op env).env = env := by
  cases op <;>
    simp [Device.perform, Res.void, Device.get_Id, Device.get_Name, Device.get_Icon,
      Device.get_Type, Device.EnumerateProcesses, Device.Spawn, Device.Resume, Device.Attach,
      Device.ToString, h, Except.map]

theorem Device.device_perform_live (d : Device) (env : Env) (op : DeviceOp) (h : d.handle ≠ NULL) :
    (d.perform op env).disposed = false := by
  by_cases hi : d.icon = none <;>
    rcases op with _ | _ | _ | dt | ⟨_, _, e⟩ | ⟨_, _, _, _, e⟩ | ⟨_, e⟩ | ⟨_, _, e, _⟩ |
      ⟨_, _, dt⟩ <;>
    (try cases e) <;> (try cases dt) <;>
    simp [Device.perform, Res.void, Res.disposed, Device.get_Id, Device.get_Name,
      Device.get_Icon, Device.get_Type, Device.EnumerateProcesses, Device.Spawn,
      Device.Resume, Device.Attach, Device.ToString, Session.ctor, Res.andThen,
      Marshal.ThrowGErrorIfSet, h, hi, Except.map]

theorem Session.session_perform_dead (s : Session) (env : Env) (op : SessionOp) (h : s.handle = NULL) :
    (s.perform op env).out = Except.error (Exn.ObjectDisposed "Session") ∧
    (s.perform op env).self = s ∧ (s.perform op env).env = env := by
  cases op <;>
    simp [Session.perform, Res.void, Session.get_Pid, Session.Detach, Session.CreateScript,
      h, Except.map]

theorem Session.session_perform_live (s : Session) (env : Env) (op : SessionOp) (h : s.handle ≠ NULL) :
    (s.perform op env).disposed = false := by
  rcases op with _ | _ | ⟨_, _, _, e, _⟩ <;> (try cases e) <;>
    simp [Session.perform, Res.void, Res.disposed, Session.get_Pid, Session.Detach,
      Session.CreateScript, Script.ctor, Marshal.ThrowGErrorIfSet, h, Except.map]

/-- C3: on a `Device` or `Session` whose handle is null, every public member, for every
argument and every native answer, throws `ObjectDisposedException`, and the wrapper and
the process (trace of calls, `activeRefs`, connections, queue) are exactly as before;
on a live handle no member leaves with `ObjectDisposedException`. -/
theorem disposed_check (d : Device) (s : Session) (env : Env) (dop : DeviceOp)
    (sop : SessionOp) :
    (d.handle = NULL →
      (d.perform dop env).out = Except.error (Exn.ObjectDisposed "Device") ∧
      (d.perform dop env).self = d ∧ (d.perform dop env).env = env) ∧
    (d.handle ≠ NULL → (d.perform dop env).disposed = false) ∧
    (s.handle = NULL →
      (s.perform sop env).out = Except.error (Exn.ObjectDisposed "Session") ∧
      (s.perform sop env).self = s ∧ (s.perform sop env).env = env) ∧
    (s.handle ≠ NULL → (s.perform sop env).disposed = false) :=
  ⟨Device.device_perform_dead d env dop, Device.device_perform_live d env dop,
   Session.session_perform_dead s env sop, Session.session_perform_live s env sop⟩

/-- C3, at a disposed and at a live wrapper of each kind. -/
theorem disposed_check_witness :
    ((Device.perform ⟨NULL, ⟨1⟩, none, none, Delegate.DeviceOnLost 0⟩
        (DeviceOp.Spawn "/bin/ls" ["ls"] [] 42 none) Env.init).out =
        Except.error (Exn.ObjectDisposed "Device") ∧
      (Device.perform ⟨NULL, ⟨1⟩, none, none, Delegate.DeviceOnLost 0⟩
        (DeviceOp.Spawn "/bin/ls" ["ls"] [] 42 none) Env.init).self =
        ⟨NULL, ⟨1⟩, none, none, Delegate.DeviceOnLost 0⟩ ∧
      (Device.perform ⟨NULL, ⟨1⟩, none, none, Delegate.DeviceOnLost 0⟩
        (DeviceOp.Spawn "/bin/ls" ["ls"] [] 42 none) Env.init).env = Env.init) ∧
    (Device.perform ⟨7, ⟨1⟩, none, some ⟨0⟩, Delegate.DeviceOnLost 0⟩
      (DeviceOp.Spawn "/bin/ls" ["ls"] [] 42 none) Env.init).disposed = false ∧
    ((Session.perform ⟨NULL, ⟨1⟩, none, Delegate.SessionOnDetached 3⟩
        (SessionOp.Pid 100) Env.init).out = Except.error (Exn.ObjectDisposed "Session") ∧
      (Session.perform ⟨NULL, ⟨1⟩, none, Delegate.SessionOnDetached 3⟩
        (SessionOp.Pid 100) Env.init).self =
        ⟨NULL, ⟨1⟩, none, Delegate.SessionOnDetached 3⟩ ∧
      (Session.perform ⟨NULL, ⟨1⟩, none, Delegate.SessionOnDetached 3⟩
        (SessionOp.Pid 100) Env.init).env = Env.init) ∧
    (Session.perform ⟨9, ⟨1⟩, some ⟨3⟩, Delegate.SessionOnDetached 3⟩
      (SessionOp.Pid 100) Env.init).disposed = false :=
  ⟨(disposed_check ⟨NULL, ⟨1⟩, none, none, Delegate.DeviceOnLost 0⟩
      ⟨NULL, ⟨1⟩, none, Delegate.SessionOnDetached 3⟩ Env.init
      (DeviceOp.Spawn "/bin/ls" ["ls"] [] 42 none) (SessionOp.Pid 100)).1 rfl,
   (disposed_check ⟨7, ⟨1⟩, none, some ⟨0⟩, Delegate.DeviceOnLost 0⟩
      ⟨9, ⟨1⟩, some ⟨3⟩, Delegate.SessionOnDetached 3⟩ Env.init
      (DeviceOp.Spawn "/bin/ls" ["ls"] [] 42 none) (SessionOp.Pid 100)).2.1 (by decide),
   (disposed_check ⟨NULL, ⟨1⟩, none, none, Delegate.DeviceOnLost 0⟩
      ⟨NULL, ⟨1⟩, none, Delegate.SessionOnDetached 3⟩ Env.init
      (DeviceOp.Spawn "/bin/ls" ["ls"] [] 42 none) (SessionOp.Pid 100)).2.2.1 rfl,
   (disposed_check ⟨7, ⟨1⟩, none, some ⟨0⟩, Delegate.DeviceOnLost 0⟩
      ⟨9, ⟨1⟩, some ⟨3⟩, Delegate.SessionOnDetached 3⟩ Env.init
      (DeviceOp.Spawn "/bin/ls" ["ls"] [] 42 none) (SessionOp.Pid 100)).2.2.2 (by decide)⟩

/-! ## Native calls that can fail -/

/-- C6: on a live `Device`, for every path, argv and envp and every answer of the native
call, `Spawn` returns the native process id exactly when no error signal was set, and
throws the error that carries the native domain, code and message when one was set; in
both cases the fields of the `Device` (handle and self reference among them), the
counter `activeRefs` and the connections are unchanged, the one call made is the native
spawn, and no member called on the `Device` afterwards throws
`ObjectDisposedException`. -/
theorem spawn_error_translation (d : Device) (path : String) (argv envp : List String)
    (pid : Nat) (error : Option GError) (env : Env) (h : d.handle ≠ NULL) :
    ((d.Spawn path argv envp pid error env).out = Except.ok pid ↔ error = none) ∧
    (∀ e, error = some e →
      (d.Spawn path argv envp pid error env).out =
        Except.error (Exn.NativeOperationFailed e)) ∧
    (d.Spawn path argv envp pid error env).self = d ∧
    (d.Spawn path argv envp pid error env).env.activeRefs = env.activeRefs ∧
    (d.Spawn path argv envp pid error env).env.connections = env.connections ∧
    (d.Spawn path argv envp pid error env).env.trace =
      env.trace ++ [Call.frida_device_spawn_sync d.handle path argv envp] ∧
    (d.Spawn path argv envp pid error env).self.handle ≠ NULL ∧
    (∀ op, ((d.Spawn path argv envp pid error env).self.perform op
      (d.Spawn path argv envp pid error env).env).disposed = false) := by
  have hself : (d.Spawn path argv envp pid error env).self = d := by
    cases error <;> simp [Device.Spawn, Marshal.ThrowGErrorIfSet, h]
  refine ⟨?_, ?_, hself, ?_, ?_, ?_, ?_, ?_⟩
  · cases error <;> simp [Device.Spawn, Marshal.ThrowGErrorIfSet, h]
  · intro e he
    simp [Device.Spawn, Marshal.ThrowGErrorIfSet, h, he]
  · cases error <;> simp [Device.Spawn, Marshal.ThrowGErrorIfSet, h, Env.log]
  · cases error <;> simp [Device.Spawn, Marshal.ThrowGErrorIfSet, h, Env.log]
  · cases error <;> simp [Device.Spawn, Marshal.ThrowGErrorIfSet, h, Env.log]
  · rw [hself]; exact h
  · intro op
    apply Device.device_perform_live
    rw [hself]; exact h

/-- C6, at a spawn that fails with a native error. -/
theorem spawn_error_translation_witness :
    (Device.Spawn ⟨7, ⟨1⟩, none, some ⟨0⟩, Delegate.DeviceOnLost 0⟩ "/no/such" [] [] 0
      (some ⟨3, 2, "not found"⟩) Env.init).out =
      Except.error (Exn.NativeOperationFailed ⟨3, 2, "not found"⟩) ∧
    (Device.perform (Device.Spawn ⟨7, ⟨1⟩, none, some ⟨0⟩, Delegate.DeviceOnLost 0⟩ "/no/such"
        [] [] 0 (some ⟨3, 2, "not found"⟩) Env.init).self (DeviceOp.Id "usb")
      (Device.Spawn ⟨7, ⟨1⟩, none, some ⟨0⟩, Delegate.DeviceOnLost 0⟩ "/no/such" [] [] 0
        (some ⟨3, 2, "not found"⟩) Env.init).env).disposed = false :=
  have h := spawn_error_translation ⟨7, ⟨1⟩, none, some ⟨0⟩, Delegate.DeviceOnLost 0⟩
    "/no/such" [] [] 0 (some ⟨3, 2, "not found"⟩) Env.init (by decide)
  ⟨h.2.1 _ rfl, h.2.2.2.2.2.2.2 (DeviceOp.Id "usb")⟩

/-- C7: on a live `Device`, `Attach` returns a `Session` exactly when the native attach
set no error signal. That `Session` is new (it is the object `gcnew` allocated), its
handle is the pointer the native attach returned, its dispatcher is the dispatcher of
the `Device`, it is live when that pointer is not null, and `activeRefs` has grown by
exactly one. When the error signal is set `Attach` throws the error that carries it, the
only call made is the native attach, so no `Session` is constructed, and `activeRefs` is
unchanged. The fields of the `Device` are unchanged in both cases. -/
theorem attach_creates_session (d : Device) (pid : Nat) (session : Ptr)
    (error : Option GError) (fresh : ObjRef) (env : Env) (h : d.handle ≠ NULL) :
    ((∃ v, (d.Attach pid session error fresh env).out = Except.ok v) ↔ error = none) ∧
    (error = none →
      (d.Attach pid session error fresh env).out =
        Except.ok (fresh, { handle := session, dispatcher := d.dispatcher,
                            selfHandle := some ⟨fresh⟩,
                            onDetachedHandler := Delegate.SessionOnDetached fresh }) ∧
      (d.Attach pid session error fresh env).env =
        (Session.ctor fresh session d.dispatcher
          (env.log (Call.frida_device_attach_sync d.handle pid))).2 ∧
      (d.Attach pid session error fresh env).env.activeRefs = env.activeRefs + 1 ∧
      (session ≠ NULL → ∀ op,
        (Session.perform { handle := session, dispatcher := d.dispatcher,
                           selfHandle := some ⟨fresh⟩,
                           onDetachedHandler := Delegate.SessionOnDetached fresh } op
          (d.Attach pid session error fresh env).env).disposed = false)) ∧
    (∀ e, error = some e →
      (d.Attach pid session error fresh env).out =
        Except.error (Exn.NativeOperationFailed e) ∧
      (d.Attach pid session error fresh env).env =
        env.log (Call.frida_device_attach_sync d.handle pid) ∧
      (d.Attach pid session error fresh env).env.activeRefs = env.activeRefs) ∧
    (d.Attach pid session error fresh env).self = d := by
  refine ⟨?_, ?_, ?_, ?_⟩
  · cases error <;> simp [Device.Attach, Marshal.ThrowGErrorIfSet, h, Session.ctor]
  · intro he
    subst he
    refine ⟨?_, ?_, ?_, ?_⟩
    · simp [Device.Attach, Marshal.ThrowGErrorIfSet, h, Session.ctor, new_gcroot]
    · simp [Device.Attach, Marshal.ThrowGErrorIfSet, h, Session.ctor]
    · simp [Device.Attach, Marshal.ThrowGErrorIfSet, h, Session.ctor, new_gcroot,
        g_signal_connect, Runtime.Ref, Env.log]
    · intro hs op
      exact Session.session_perform_live _ _ op hs
  · intro e he
    subst he
    simp [Device.Attach, Marshal.ThrowGErrorIfSet, h, Env.log]
  · cases error <;> simp [Device.Attach, Marshal.ThrowGErrorIfSet, h, Session.ctor]

/-- C7, at an attach to pid 100 that succeeds. -/
theorem attach_creates_session_witness :
    (Device.Attach ⟨7, ⟨1⟩, none, some ⟨0⟩, Delegate.DeviceOnLost 0⟩ 100 9 none 1
      Env.init).out =
      Except.ok (1, ⟨9, ⟨1⟩, some ⟨1⟩, Delegate.SessionOnDetached 1⟩) ∧
    (Device.Attach ⟨7, ⟨1⟩, none, some ⟨0⟩, Delegate.DeviceOnLost 0⟩ 100 9 none 1
      Env.init).env.activeRefs = Env.init.activeRefs + 1 :=
  have h := attach_creates_session ⟨7, ⟨1⟩, none, some ⟨0⟩, Delegate.DeviceOnLost 0⟩ 100 9
    none 1 Env.init (by decide)
  ⟨(h.2.1 rfl).1, (h.2.1 rfl).2.2.1⟩

/-! ## Event delivery -/

theorem Dispatcher.CheckAccess_own (d : Dispatcher) : d.CheckAccess d.thread = true := by
  simp [Dispatcher.CheckAccess]

theorem Dispatcher.CheckAccess_eq (d : Dispatcher) (caller : ThreadId)
    (h : d.CheckAccess caller = true) : caller = d.thread := by
  simpa [Dispatcher.CheckAccess] using h

theorem Device.OnLost_inline (d : Device) (caller : ThreadId) (sender : ObjRef) (e : EventArgs)
    (env : Env) (h : d.dispatcher.CheckAccess caller = true) :
    d.OnLost caller sender e env =
      { env with trace := env.trace ++
          [Call.raise HostEvent.Lost sender e d.dispatcher.thread] } := by
  have hc := Dispatcher.CheckAccess_eq _ _ h
  rw [Device.OnLost, if_pos h, hc]
  rfl

theorem Device.OnLost_queued (d : Device) (caller : ThreadId) (sender : ObjRef) (e : EventArgs)
    (env : Env) (h : d.dispatcher.CheckAccess caller = false) :
    d.OnLost caller sender e env =
      { env with
        queue := env.queue ++ [d.lostItem sender e],
        trace := env.trace ++ [Call.BeginInvoke (d.lostItem sender e)] } := by
  rw [Device.OnLost, if_neg (by simp [h])]
  rfl

theorem Session.OnDetached_inline (s : Session) (caller : ThreadId) (sender : ObjRef)
    (e : EventArgs) (env : Env) (h : s.dispatcher.CheckAccess caller = true) :
    s.OnDetached caller sender e env =
      { env with trace := env.trace ++
          [Call.raise HostEvent.Detached sender e s.dispatcher.thread] } := by
  have hc := Dispatcher.CheckAccess_eq _ _ h
  rw [Session.OnDetached, if_pos h, hc]
  rfl

theorem Session.OnDetached_queued (s : Session) (caller : ThreadId) (sender : ObjRef)
    (e : EventArgs) (env : Env) (h : s.dispatcher.CheckAccess caller = false) :
    s.OnDetached caller sender e env =
      { env with
        queue := env.queue ++ [s.detachedItem sender e],
        trace := env.trace ++ [Call.BeginInvoke (s.detachedItem sender e)] } := by
  rw [Session.OnDetached, if_neg (by simp [h])]
  rfl

/-- C5: the `Lost` and `Detached` events are raised on the thread of the wrapper's
dispatcher only. Called on the dispatcher's thread (`CheckAccess` true), `OnLost` and
`OnDetached` raise the event once, on that thread, and queue nothing. Called on any
other thread they raise nothing and queue exactly one work item, on the wrapper's
dispatcher, at priority `Normal`, for the wrapper's own handler with the same sender and
arguments; when the dispatcher runs that item the event is raised once, on the
dispatcher's thread, and nothing is queued again. The native callbacks `OnDeviceLost` and
`OnSessionDetached` enter the same methods with the wrapper behind `user_data` as
sender. -/
theorem event_on_target_context (d : Device) (s : Session) (caller : ThreadId)
    (sender : ObjRef) (e : EventArgs) (env : Env) :
    (d.dispatcher.CheckAccess caller = true →
      d.OnLost caller sender e env =
        { env with trace := env.trace ++
            [Call.raise HostEvent.Lost sender e d.dispatcher.thread] }) ∧
    (d.dispatcher.CheckAccess caller = false →
      (d.lostItem sender e).dispatcher = d.dispatcher ∧
      (d.lostItem sender e).priority = DispatcherPriority.Normal ∧
      d.OnLost caller sender e env =
        { env with
          queue := env.queue ++ [d.lostItem sender e],
          trace := env.trace ++ [Call.BeginInvoke (d.lostItem sender e)] } ∧
      d.Invoke (d.lostItem sender e) (d.OnLost caller sender e env) =
        { env with
          queue := (env.queue ++ [d.lostItem sender e]).erase (d.lostItem sender e),
          trace := env.trace ++
            [Call.BeginInvoke (d.lostItem sender e),
             Call.raise HostEvent.Lost sender e d.dispatcher.thread] }) ∧
    (∀ ev sd a t, Call.raise ev sd a t ∈ (d.OnLost caller sender e env).trace →
      Call.raise ev sd a t ∈ env.trace ∨ t = d.dispatcher.thread) ∧
    (∀ device root, OnDeviceLost device root d caller env =
      d.OnLost caller root.target EventArgs.Empty env) ∧
    (s.dispatcher.CheckAccess caller = true →
      s.OnDetached caller sender e env =
        { env with trace := env.trace ++
            [Call.raise HostEvent.Detached sender e s.dispatcher.thread] }) ∧
    (s.dispatcher.CheckAccess caller = false →
      (s.detachedItem sender e).dispatcher = s.dispatcher ∧
      (s.detachedItem sender e).priority = DispatcherPriority.Normal ∧
      s.OnDetached caller sender e env =
        { env with
          queue := env.queue ++ [s.detachedItem sender e],
          trace := env.trace ++ [Call.BeginInvoke (s.detachedItem sender e)] } ∧
      s.Invoke (s.detachedItem sender e) (s.OnDetached caller sender e env) =
        { env with
          queue := (env.queue ++ [s.detachedItem sender e]).erase (s.detachedItem sender e),
          trace := env.trace ++
            [Call.BeginInvoke (s.detachedItem sender e),
             Call.raise HostEvent.Detached sender e s.dispatcher.thread] }) ∧
    (∀ ev sd a t, Call.raise ev sd a t ∈ (s.OnDetached caller sender e env).trace →
      Call.raise ev sd a t ∈ env.trace ∨ t = s.dispatcher.thread) ∧
    (∀ session root, OnSessionDetached session root s caller env =
      s.OnDetached caller root.target EventArgs.Empty env) := by
  refine ⟨Device.OnLost_inline d caller sender e env, ?_, ?_, ?_,
    Session.OnDetached_inline s caller sender e env, ?_, ?_, ?_⟩
  · intro h
    refine ⟨rfl, rfl, Device.OnLost_queued d caller sender e env h, ?_⟩
    rw [Device.OnLost_queued d caller sender e env h]
    show d.OnLost d.dispatcher.thread sender e _ = _
    rw [Device.OnLost_inline _ _ _ _ _ (Dispatcher.CheckAccess_own _)]
    simp
  · intro ev sd a t hmem
    by_cases h : d.dispatcher.CheckAccess caller = true
    · rw [Device.OnLost_inline d caller sender e env h] at hmem
      rcases List.mem_append.1 hmem with hm | hm
      · exact Or.inl hm
      · exact Or.inr (Call.raise.inj (List.mem_singleton.1 hm)).2.2.2
    · rw [Device.OnLost_queued d caller sender e env (by simpa using h)] at hmem
      rcases List.mem_append.1 hmem with hm | hm
      · exact Or.inl hm
      · exact absurd (List.mem_singleton.1 hm) (by simp)
  · intro device root
    rfl
  · intro h
    refine ⟨rfl, rfl, Session.OnDetached_queued s caller sender e env h, ?_⟩
    rw [Session.OnDetached_queued s caller sender e env h]
    show s.OnDetached s.dispatcher.thread sender e _ = _
    rw [Session.OnDetached_inline _ _ _ _ _ (Dispatcher.CheckAccess_own _)]
    simp
  · intro ev sd a t hmem
    by_cases h : s.dispatcher.CheckAccess caller = true
    · rw [Session.OnDetached_inline s caller sender e env h] at hmem
      rcases List.mem_append.1 hmem with hm | hm
      · exact Or.inl hm
      · exact Or.inr (Call.raise.inj (List.mem_singleton.1 hm)).2.2.2
    · rw [Session.OnDetached_queued s caller sender e env (by simpa using h)] at hmem
      rcases List.mem_append.1 hmem with hm | hm
      · exact Or.inl hm
      · exact absurd (List.mem_singleton.1 hm) (by simp)
  · intro session root
    rfl

/-- C5, at a notification that arrives on thread 5 and at one that arrives on the
dispatcher's thread 1. -/
theorem event_on_target_context_witness :
    Device.OnLost ⟨7, ⟨1⟩, none, some ⟨0⟩, Delegate.DeviceOnLost 0⟩ 5 0 EventArgs.Empty
        Env.init =
      { Env.init with
        queue := [⟨⟨1⟩, DispatcherPriority.Normal, Delegate.DeviceOnLost 0, 0, EventArgs.Empty⟩],
        trace := [Call.BeginInvoke
          ⟨⟨1⟩, DispatcherPriority.Normal, Delegate.DeviceOnLost 0, 0, EventArgs.Empty⟩] } ∧
    Session.OnDetached ⟨9, ⟨1⟩, some ⟨3⟩, Delegate.SessionOnDetached 3⟩ 1 3 EventArgs.Empty
        Env.init =
      { Env.init with trace := [Call.raise HostEvent.Detached 3 EventArgs.Empty 1] } :=
  ⟨((event_on_target_context ⟨7, ⟨1⟩, none, some ⟨0⟩, Delegate.DeviceOnLost 0⟩
      ⟨9, ⟨1⟩, some ⟨3⟩, Delegate.SessionOnDetached 3⟩ 5 0 EventArgs.Empty Env.init).2.1
      (by decide)).2.2.1,
   (event_on_target_context ⟨7, ⟨1⟩, none, some ⟨0⟩, Delegate.DeviceOnLost 0⟩
      ⟨9, ⟨1⟩, some ⟨3⟩, Delegate.SessionOnDetached 3⟩ 1 3 EventArgs.Empty Env.init).2.2.2.2.1
      (by decide)⟩

/-! ## The icon cache -/

theorem Device.readIcons_cached (answers : List (Option ImageSource)) (d : Device) (env : Env)
    (img : ImageSource) (h : d.handle ≠ NULL) (hi : d.icon = some img) :
    d.readIcons answers env =
      (List.replicate answers.length (Except.ok (some img)), d, env) := by
  induction answers with
  | nil => rfl
  | cons a rest ih =>
    have hr : d.get_Icon a env = ⟨d, env, Except.ok (some img)⟩ := by
      simp [Device.get_Icon, h, hi]
    simp only [Device.readIcons, hr, ih, List.length_cons, List.replicate_succ]

theorem Device.readIcons_nil (d : Device) (env : Env) : d.readIcons [] env = ([], d, env) :=
  rfl

theorem Device.readIcons_cons (a : Option ImageSource) (rest : List (Option ImageSource))
    (d : Device) (env : Env) :
    d.readIcons (a :: rest) env =
      ((d.get_Icon a env).out ::
        (Device.readIcons rest (d.get_Icon a env).self (d.get_Icon a env).env).1,
       (Device.readIcons rest (d.get_Icon a env).self (d.get_Icon a env).env).2) :=
  rfl

theorem Device.readIcons_nulls (k : Nat) (tail : List (Option ImageSource)) (d : Device)
    (env : Env) (h : d.handle ≠ NULL) (hi : d.icon = none) :
    d.readIcons (List.replicate k none ++ tail) env =
      (List.replicate k (Except.ok none) ++
        (d.readIcons tail
          (env.logAll (List.replicate k (Call.frida_device_get_icon d.handle)))).1,
       (d.readIcons tail
          (env.logAll (List.replicate k (Call.frida_device_get_icon d.handle)))).2) := by
  induction k generalizing env with
  | zero => simp [Env.logAll]
  | succ k ih =>
    have hd : ({ d with icon := none } : Device) = d := by
      cases d
      simp_all
    have hr : d.get_Icon none env =
        ⟨d, env.logAll [Call.frida_device_get_icon d.handle], Except.ok none⟩ := by
      simp [Device.get_Icon, h, hi, Env.log, Env.logAll, hd]
    rw [List.replicate_succ, List.cons_append, Device.readIcons_cons, hr]
    simp only []
    rw [ih]
    simp [Env.logAll, List.append_assoc, List.replicate_succ]

theorem iconCalls_append (a b : List Call) : iconCalls (a ++ b) = iconCalls a + iconCalls b := by
  simp [iconCalls, List.countP_append]

theorem iconCalls_replicate (k : Nat) (p : Ptr) :
    iconCalls (List.replicate k (Call.frida_device_get_icon p)) = k := by
  induction k with
  | zero => rfl
  | succ k ih =>
    simp [iconCalls, List.replicate_succ, List.countP_cons] at ih ⊢
    exact ih

/-- C9, what fails: a null image is not cached. On a freshly constructed live `Device`
two reads of `Icon` whose conversions both return null call the native icon getter
twice, and when the second conversion returns an image the second read returns it,
which is not the value of the first computation. -/
theorem icon_null_is_recomputed :
    iconCalls (Device.readIcons [none, none] (Device.ctor 0 7 ⟨1⟩ Env.init).1
      (Device.ctor 0 7 ⟨1⟩ Env.init).2).2.2.trace = 2 ∧
    (Device.readIcons [none, some ⟨5⟩] (Device.ctor 0 7 ⟨1⟩ Env.init).1
      (Device.ctor 0 7 ⟨1⟩ Env.init).2).1 = [Except.ok none, Except.ok (some ⟨5⟩)] ∧
    iconCalls (Device.readIcons [none, some ⟨5⟩] (Device.ctor 0 7 ⟨1⟩ Env.init).1
      (Device.ctor 0 7 ⟨1⟩ Env.init).2).2.2.trace = 2 := by
  simp [Device.readIcons, Device.get_Icon, Device.ctor, new_gcroot, g_signal_connect,
    Runtime.Ref, Env.log, Env.init, NULL, iconCalls, List.countP_cons]

/-- C9, amended: a non-null icon is cached for the handle's lifetime. On a live `Device`
with nothing cached, in a sequence of reads with no Close in between, each read whose
conversion returns null calls the native getter and returns null; the first read whose
conversion returns an image `img` calls it one last time; that read and every later
read return `img`, whatever the later answers would be. When the first conversion
returns an image (`k = 0`) the getter is called exactly once. On a `Device` with an
image cached no read calls the getter and every read returns the cached image. -/
theorem icon_cached_when_non_null (d : Device) (env : Env) (k : Nat) (img : ImageSource)
    (rest : List (Option ImageSource)) (h : d.handle ≠ NULL) :
    (d.icon = none →
      (d.readIcons (List.replicate k none ++ some img :: rest) env).1 =
        List.replicate k (Except.ok none) ++
          List.replicate (rest.length + 1) (Except.ok (some img)) ∧
      iconCalls (d.readIcons (List.replicate k none ++ some img :: rest) env).2.2.trace =
        iconCalls env.trace + k + 1 ∧
      (d.readIcons (List.replicate k none ++ some img :: rest) env).2.1 =
        { d with icon := some img } ∧
      (d.readIcons (List.replicate k none) env).1 = List.replicate k (Except.ok none) ∧
      iconCalls (d.readIcons (List.replicate k none) env).2.2.trace =
        iconCalls env.trace + k) ∧
    (d.icon = some img →
      d.readIcons rest env = (List.replicate rest.length (Except.ok (some img)), d, env)) := by
  refine ⟨?_, Device.readIcons_cached rest d env img h⟩
  intro hi
  have hr : ∀ env1 : Env, d.get_Icon (some img) env1 =
      ⟨{ d with icon := some img }, env1.logAll [Call.frida_device_get_icon d.handle],
        Except.ok (some img)⟩ := by
    intro env1
    simp [Device.get_Icon, h, hi, Env.log, Env.logAll]
  have hc : ∀ env1 : Env, Device.readIcons rest { d with icon := some img } env1 =
      (List.replicate rest.length (Except.ok (some img)), { d with icon := some img }, env1) :=
    fun env1 => Device.readIcons_cached rest _ env1 img h rfl
  have h0 := Device.readIcons_nulls k [] d env h hi
  rw [List.append_nil] at h0
  rw [Device.readIcons_nulls k (some img :: rest) d env h hi, h0]
  simp only [Device.readIcons_cons, hr, hc]
  refine ⟨?_, ?_, ?_, ?_, ?_⟩
  · simp [List.replicate_succ]
  · simp [Env.logAll, iconCalls_append, iconCalls_replicate]
    simp [iconCalls, List.countP_cons]
    omega
  · simp
  · simp [Device.readIcons_nil]
  · simp [Device.readIcons_nil, Env.logAll, iconCalls_append, iconCalls_replicate]

/-- C9 amended, at three reads after construction whose conversions return null, an
image, and another image. -/
theorem icon_cached_when_non_null_witness :
    (Device.readIcons [none, some ⟨5⟩, some ⟨6⟩]
      ⟨7, ⟨1⟩, none, some ⟨0⟩, Delegate.DeviceOnLost 0⟩ Env.init).1 =
      [Except.ok none, Except.ok (some ⟨5⟩), Except.ok (some ⟨5⟩)] ∧
    iconCalls (Device.readIcons [none, some ⟨5⟩, some ⟨6⟩]
      ⟨7, ⟨1⟩, none, some ⟨0⟩, Delegate.DeviceOnLost 0⟩ Env.init).2.2.trace = 2 :=
  have h := (icon_cached_when_non_null ⟨7, ⟨1⟩, none, some ⟨0⟩, Delegate.DeviceOnLost 0⟩
    Env.init 1 ⟨5⟩ [some ⟨6⟩] (by decide)).1 rfl
  ⟨h.1, h.2.1⟩

/-! ## The runtime counter over many wrappers -/

theorem Obj.obj_teardown_dead (t : Teardown) (o : Obj) (env : Env) (h : o.live = false) :
    o.teardown t env = (o, env) := by
  cases o with
  | device d =>
    have hd : d.handle = NULL := by simpa [Obj.live, Obj.handle] using h
    simp [Obj.teardown, Device.device_teardown_dead t d env hd]
  | session s =>
    have hd : s.handle = NULL := by simpa [Obj.live, Obj.handle] using h
    simp [Obj.teardown, Session.session_teardown_dead t s env hd]

theorem Obj.teardown_not_live (t : Teardown) (o : Obj) (env : Env) :
    (o.teardown t env).1.live = false := by
  cases o with
  | device d => simp [Obj.teardown, Obj.live, Obj.handle, Device.device_teardown_handle]
  | session s => simp [Obj.teardown, Obj.live, Obj.handle, Session.session_teardown_handle]

theorem Obj.teardown_refs (t : Teardown) (o : Obj) (env : Env) (h : o.live = true) :
    (o.teardown t env).2.activeRefs = env.activeRefs - 1 := by
  cases o with
  | device d =>
    have hd : d.handle ≠ NULL := by simpa [Obj.live, Obj.handle] using h
    exact (Device.device_teardown_counts t d env hd).2.2
  | session s =>
    have hd : s.handle ≠ NULL := by simpa [Obj.live, Obj.handle] using h
    exact (Session.session_teardown_counts t s env hd).2.2

theorem countP_set_dead (heap : List Obj) (r : Nat) (o o1 : Obj) (h : heap[r]? = some o)
    (hl : o.live = true) (hd : o1.live = false) :
    (heap.set r o1).countP Obj.live + 1 = heap.countP Obj.live := by
  induction heap generalizing r with
  | nil => simp at h
  | cons a rest ih =>
    cases r with
    | zero =>
      simp at h
      subst h
      simp [List.countP_cons, hl, hd]
    | succ r =>
      simp at h
      have := ih r h
      simp [List.countP_cons]
      omega

theorem World.step_new_refs (w : World) (op : LifecycleOp) (h : op.isNew = true) :
    (w.step op).env.activeRefs = w.env.activeRefs + 1 ∧
    ∃ o, (w.step op).heap = w.heap ++ [o] ∧ o.live = op.opensOwned := by
  cases op with
  | newDevice handle dispatcher =>
    refine ⟨?_, _, rfl, ?_⟩
    · simp [World.step, Device.ctor, new_gcroot, g_signal_connect, Runtime.Ref, Env.log]
    · simp [Device.ctor, new_gcroot, Obj.live, Obj.handle, LifecycleOp.opensOwned]
  | newSession handle dispatcher =>
    refine ⟨?_, _, rfl, ?_⟩
    · simp [World.step, Session.ctor, new_gcroot, g_signal_connect, Runtime.Ref, Env.log]
    · simp [Session.ctor, new_gcroot, Obj.live, Obj.handle, LifecycleOp.opensOwned]
  | teardown t r => simp [LifecycleOp.isNew] at h

theorem World.step_teardown (w : World) (t : Teardown) (r : ObjRef) :
    (w.step (LifecycleOp.teardown t r) = w ∧
      ∀ o, w.heap[r]? = some o → o.live = false) ∨
    (∃ o, w.heap[r]? = some o ∧ o.live = true ∧
      (w.step (LifecycleOp.teardown t r)).env.activeRefs = w.env.activeRefs - 1 ∧
      (w.step (LifecycleOp.teardown t r)).heap = w.heap.set r (o.teardown t w.env).1) := by
  cases hr : w.heap[r]? with
  | none => exact Or.inl ⟨by simp [World.step, hr], by simp⟩
  | some o =>
    by_cases hl : o.live = true
    · exact Or.inr ⟨o, rfl, hl, by simp [World.step, hr, Obj.teardown_refs t o w.env hl],
        by simp [World.step, hr]⟩
    · have hl0 : o.live = false := by simpa using hl
      refine Or.inl ⟨?_, ?_⟩
      · have hset : w.heap.set r o = w.heap := by
          apply List.ext_getElem?
          intro i
          by_cases hi : r = i
          · subst hi
            rw [List.getElem?_set]
            simp [hr]
            exact (List.getElem?_eq_some.1 hr).1
          · rw [List.getElem?_set_ne hi]
        simp [World.step, hr, Obj.obj_teardown_dead t o w.env hl0, hset]
      · intro o1 ho1
        cases ho1
        exact hl0

theorem World.step_length (w : World) (op : LifecycleOp) :
    (w.step op).heap.length = w.heap.length + (if op.isNew = true then 1 else 0) := by
  cases op with
  | newDevice handle dispatcher => simp [World.step, LifecycleOp.isNew]
  | newSession handle dispatcher => simp [World.step, LifecycleOp.isNew]
  | teardown t r =>
    cases hr : w.heap[r]? <;> simp [World.step, LifecycleOp.isNew, hr]

theorem World.run_cons (op : LifecycleOp) (ops : List LifecycleOp) (w : World) :
    World.run (op :: ops) w = World.run ops (w.step op) :=
  rfl

theorem World.run_length (ops : List LifecycleOp) (w : World) :
    (World.run ops w).heap.length = w.heap.length + constructed ops := by
  induction ops generalizing w with
  | nil => simp [World.run, constructed]
  | cons op rest ih =>
    rw [World.run_cons, ih, World.step_length]
    cases h : op.isNew <;> simp [constructed, List.countP_cons, h]
    omega

theorem World.step_bounds (w : World) (op : LifecycleOp)
    (h1 : ((w.heap.countP Obj.live : Nat) : Int) ≤ w.env.activeRefs)
    (h2 : w.env.activeRefs ≤ (w.heap.length : Int)) :
    (((w.step op).heap.countP Obj.live : Nat) : Int) ≤ (w.step op).env.activeRefs ∧
    (w.step op).env.activeRefs ≤ ((w.step op).heap.length : Int) := by
  cases hn : op.isNew with
  | false =>
    cases op with
    | teardown t r =>
      rcases World.step_teardown w t r with ⟨hw, _⟩ | ⟨o, ho, hl, hrefs, hheap⟩
      · rw [hw]
        exact ⟨h1, h2⟩
      · have hc := countP_set_dead w.heap r o (o.teardown t w.env).1 ho hl
          (Obj.teardown_not_live t o w.env)
        rw [hrefs, hheap, List.length_set]
        omega
    | newDevice handle dispatcher => simp [LifecycleOp.isNew] at hn
    | newSession handle dispatcher => simp [LifecycleOp.isNew] at hn
  | true =>
    obtain ⟨hrefs, o, hheap, _⟩ := World.step_new_refs w op hn
    rw [hrefs, hheap, List.countP_append, List.length_append]
    have hle : [o].countP Obj.live ≤ 1 := by
      simpa using (List.countP_le_length Obj.live : [o].countP Obj.live ≤ [o].length)
    simp only [List.length_singleton]
    omega

theorem World.step_exact (w : World) (op : LifecycleOp) (hop : op.opensOwned = true)
    (h : w.env.activeRefs = ((w.heap.countP Obj.live : Nat) : Int)) :
    (w.step op).env.activeRefs = (((w.step op).heap.countP Obj.live : Nat) : Int) := by
  cases hn : op.isNew with
  | false =>
    cases op with
    | teardown t r =>
      rcases World.step_teardown w t r with ⟨hw, _⟩ | ⟨o, ho, hl, hrefs, hheap⟩
      · rw [hw]
        exact h
      · have hc := countP_set_dead w.heap r o (o.teardown t w.env).1 ho hl
          (Obj.teardown_not_live t o w.env)
        rw [hrefs, hheap]
        omega
    | newDevice handle dispatcher => simp [LifecycleOp.isNew] at hn
    | newSession handle dispatcher => simp [LifecycleOp.isNew] at hn
  | true =>
    obtain ⟨hrefs, o, hheap, hlive⟩ := World.step_new_refs w op hn
    rw [hop] at hlive
    rw [hrefs, hheap, List.countP_append]
    simp [List.countP_cons, hlive, h]

theorem World.run_bounds (ops : List LifecycleOp) (w : World)
    (h1 : ((w.heap.countP Obj.live : Nat) : Int) ≤ w.env.activeRefs)
    (h2 : w.env.activeRefs ≤ (w.heap.length : Int)) :
    (((World.run ops w).heap.countP Obj.live : Nat) : Int) ≤ (World.run ops w).env.activeRefs ∧
    (World.run ops w).env.activeRefs ≤ ((World.run ops w).heap.length : Int) := by
  induction ops generalizing w with
  | nil => exact ⟨h1, h2⟩
  | cons op rest ih =>
    rw [World.run_cons]
    exact ih _ (World.step_bounds w op h1 h2).1 (World.step_bounds w op h1 h2).2

theorem World.run_exact (ops : List LifecycleOp) (w : World)
    (hops : ∀ op ∈ ops, op.opensOwned = true)
    (h : w.env.activeRefs = ((w.heap.countP Obj.live : Nat) : Int)) :
    (World.run ops w).env.activeRefs = (((World.run ops w).heap.countP Obj.live : Nat) : Int) := by
  induction ops generalizing w with
  | nil => exact h
  | cons op rest ih =>
    rw [World.run_cons]
    exact ih _ (fun o ho => hops o (List.mem_cons_of_mem _ ho))
      (World.step_exact w op (hops op (List.mem_cons_self _ _)) h)

theorem World.step_dead (w : World) (op : LifecycleOp) (r : ObjRef) (o : Obj)
    (h : w.heap[r]? = some o) (hd : o.live = false) : (w.step op).heap[r]? = some o := by
  cases hn : op.isNew with
  | false =>
    cases op with
    | teardown t r1 =>
      rcases World.step_teardown w t r1 with ⟨hw, _⟩ | ⟨o1, ho1, hl1, _, hheap⟩
      · rw [hw]
        exact h
      · have hne : r1 ≠ r := by
          intro he
          subst he
          rw [h] at ho1
          cases ho1
          rw [hd] at hl1
          exact Bool.noConfusion hl1
        rw [hheap, List.getElem?_set_ne hne]
        exact h
    | newDevice handle dispatcher => simp [LifecycleOp.isNew] at hn
    | newSession handle dispatcher => simp [LifecycleOp.isNew] at hn
  | true =>
    obtain ⟨_, o1, hheap, _⟩ := World.step_new_refs w op hn
    rw [hheap, List.getElem?_append_left (List.getElem?_eq_some.1 h).1]
    exact h

theorem World.run_dead (ops : List LifecycleOp) (w : World) (r : ObjRef) (o : Obj)
    (h : w.heap[r]? = some o) (hd : o.live = false) : (World.run ops w).heap[r]? = some o := by
  induction ops generalizing w with
  | nil => exact h
  | cons op rest ih =>
    rw [World.run_cons]
    exact ih _ (World.step_dead w op r o h hd)

theorem World.run_closed (ops : List LifecycleOp) (w : World) (r : ObjRef)
    (h : closedIn ops w.heap.length r = true) :
    ∃ o, (World.run ops w).heap[r]? = some o ∧ o.live = false := by
  induction ops generalizing w with
  | nil => simp [closedIn] at h
  | cons op rest ih =>
    rw [World.run_cons]
    cases op with
    | teardown t r1 =>
      have hlen : (w.step (LifecycleOp.teardown t r1)).heap.length = w.heap.length := by
        simp [World.step_length, LifecycleOp.isNew]
      simp only [closedIn, Bool.or_eq_true, Bool.and_eq_true, beq_iff_eq,
        decide_eq_true_eq] at h
      rcases h with ⟨he, hlt⟩ | h
      · subst he
        obtain ⟨o, ho⟩ : ∃ o, w.heap[r1]? = some o :=
          ⟨w.heap[r1], List.getElem?_eq_getElem hlt⟩
        rcases World.step_teardown w t r1 with ⟨hw, hall⟩ | ⟨o1, ho1, _, _, hheap⟩
        · refine ⟨o, World.run_dead rest _ r1 o ?_ (hall o ho), hall o ho⟩
          rw [hw]
          exact ho
        · refine ⟨(o1.teardown t w.env).1, World.run_dead rest _ r1 _ ?_
            (Obj.teardown_not_live t o1 w.env), Obj.teardown_not_live t o1 w.env⟩
          rw [hheap, List.getElem?_set]
          simp [hlt]
      · exact ih _ (by rw [hlen]; exact h)
    | newDevice handle dispatcher =>
      have hlen : (w.step (LifecycleOp.newDevice handle dispatcher)).heap.length =
          w.heap.length + 1 := by
        simp [World.step_length, LifecycleOp.isNew]
      exact ih _ (by rw [hlen]; simpa [closedIn] using h)
    | newSession handle dispatcher =>
      have hlen : (w.step (LifecycleOp.newSession handle dispatcher)).heap.length =
          w.heap.length + 1 := by
        simp [World.step_length, LifecycleOp.isNew]
      exact ih _ (by rw [hlen]; simpa [closedIn] using h)

theorem constructed_take_le (ops : List LifecycleOp) (k : Nat) :
    constructed (ops.take k) ≤ constructed ops :=
  List.Sublist.countP_le _ (List.take_sublist k ops)

/-- C1: with `Runtime::Ref` and `Runtime::Unref` as +1 and -1 on a counter that starts
at 0, for every sequence of constructions of `Device` and `Session` wrappers and of
explicit disposals and finalizer runs on them, in any interleaving: after every prefix
of the sequence `0 <= activeRefs <= N`, where `N` is the number of wrappers the sequence
constructs; and when every constructor was given an owned (non-null) native pointer,
the counter equals the number of wrappers whose handle is set at every point, and it is
0 at the end once every wrapper was torn down at least once after its construction. -/
theorem activeRefs_bounded_and_balanced (ops : List LifecycleOp) :
    (∀ k, 0 ≤ (World.run (ops.take k) World.init).env.activeRefs ∧
      (World.run (ops.take k) World.init).env.activeRefs ≤ (constructed ops : Int)) ∧
    ((∀ op ∈ ops, op.opensOwned = true) →
      (∀ k, (World.run (ops.take k) World.init).env.activeRefs =
        (((World.run (ops.take k) World.init).heap.countP Obj.live : Nat) : Int)) ∧
      ((∀ r, r < constructed ops → closedIn ops 0 r = true) →
        (World.run ops World.init).env.activeRefs = 0)) := by
  have hb0 : ((World.init.heap.countP Obj.live : Nat) : Int) ≤ World.init.env.activeRefs := by
    simp [World.init, Env.init]
  have hb1 : World.init.env.activeRefs ≤ (World.init.heap.length : Int) := by
    simp [World.init, Env.init]
  have he0 : World.init.env.activeRefs = ((World.init.heap.countP Obj.live : Nat) : Int) := by
    simp [World.init, Env.init]
  refine ⟨?_, ?_⟩
  · intro k
    have hb := World.run_bounds (ops.take k) World.init hb0 hb1
    have hlen := World.run_length (ops.take k) World.init
    have hle := constructed_take_le ops k
    have hz : World.init.heap.length = 0 := rfl
    constructor
    · omega
    · omega
  · intro hops
    refine ⟨?_, ?_⟩
    · intro k
      exact World.run_exact (ops.take k) World.init
        (fun o ho => hops o (List.mem_of_mem_take ho)) he0
    · intro hclosed
      rw [World.run_exact ops World.init hops he0]
      have hlen := World.run_length ops World.init
      have hz : World.init.heap.length = 0 := rfl
      have hnone : (World.run ops World.init).heap.countP Obj.live = 0 := by
        rw [List.countP_eq_zero]
        intro o ho
        obtain ⟨r, hr, hget⟩ := List.getElem_of_mem ho
        have hlt : r < constructed ops := by omega
        obtain ⟨o1, ho1, hd⟩ := World.run_closed ops World.init r (hclosed r hlt)
        rw [List.getElem?_eq_getElem hr, hget] at ho1
        cases ho1
        simp [hd]
      simp [hnone]

/-- C1, at a device and a session that are both torn down, the device twice. -/
theorem activeRefs_bounded_and_balanced_witness :
    (World.run [LifecycleOp.newDevice 7 ⟨1⟩, LifecycleOp.newSession 9 ⟨1⟩,
      LifecycleOp.teardown Teardown.Finalize 0, LifecycleOp.teardown Teardown.Dispose 1,
      LifecycleOp.teardown Teardown.Dispose 0] World.init).env.activeRefs = 0 :=
  ((activeRefs_bounded_and_balanced [LifecycleOp.newDevice 7 ⟨1⟩, LifecycleOp.newSession 9 ⟨1⟩,
      LifecycleOp.teardown Teardown.Finalize 0, LifecycleOp.teardown Teardown.Dispose 1,
      LifecycleOp.teardown Teardown.Dispose 0]).2 (by decide)).2 (by decide)

/-! ## Parent and child -/

theorem World.step_teardown_frame (w : World) (t : Teardown) (i j : ObjRef) (hne : i ≠ j) :
    (w.step (LifecycleOp.teardown t i)).heap[j]? = w.heap[j]? := by
  cases hr : w.heap[i]? with
  | none => simp [World.step, hr]
  | some o => simp [World.step, hr, List.getElem?_set_ne hne]

theorem Device.Attach_ok (d : Device) (pid : Nat) (session : Ptr) (fresh : ObjRef) (env : Env)
    (h : d.handle ≠ NULL) :
    d.Attach pid session none fresh env =
      ⟨d, (Session.ctor fresh session d.dispatcher
            (env.log (Call.frida_device_attach_sync d.handle pid))).2,
        Except.ok (fresh, (Session.ctor fresh session d.dispatcher
            (env.log (Call.frida_device_attach_sync d.handle pid))).1)⟩ := by
  simp [Device.Attach, Marshal.ThrowGErrorIfSet, h]

theorem World.step_teardown_at (w : World) (t : Teardown) (i : ObjRef) (o : Obj)
    (ho : w.heap[i]? = some o) :
    (w.step (LifecycleOp.teardown t i)).heap[i]? = some (o.teardown t w.env).1 ∧
    (w.step (LifecycleOp.teardown t i)).env = (o.teardown t w.env).2 := by
  have hi : i < w.heap.length := (List.getElem?_eq_some.1 ho).1
  simp [World.step, ho, List.getElem?_set, hi]

theorem World.teardown_parent_frame (w : World) (t : Teardown) (i j : ObjRef) (D : Device)
    (S : Session) (hD : w.heap[i]? = some (Obj.device D)) (hS : w.heap[j]? = some (Obj.session S))
    (hlive : D.handle ≠ NULL) :
    (w.step (LifecycleOp.teardown t i)).heap[j]? = some (Obj.session S) ∧
    (w.step (LifecycleOp.teardown t i)).env.activeRefs = w.env.activeRefs - 1 ∧
    (∃ D1, (w.step (LifecycleOp.teardown t i)).heap[i]? = some (Obj.device D1) ∧
      D1.handle = NULL) ∧
    (∀ u, ∃ S1,
      ((w.step (LifecycleOp.teardown t i)).step (LifecycleOp.teardown u j)).heap[j]? =
        some (Obj.session S1) ∧ S1.handle = NULL) := by
  have hne : i ≠ j := by
    intro he
    subst he
    rw [hD] at hS
    cases hS
  have hj : (w.step (LifecycleOp.teardown t i)).heap[j]? = some (Obj.session S) := by
    rw [World.step_teardown_frame w t i j hne]
    exact hS
  have hat := World.step_teardown_at w t i _ hD
  refine ⟨hj, ?_, ?_, ?_⟩
  · rw [hat.2]
    exact Obj.teardown_refs t (Obj.device D) w.env
      (by simpa [Obj.live, Obj.handle] using hlive)
  · exact ⟨(Device.teardown t (D, w.env)).1, hat.1, Device.device_teardown_handle t D w.env⟩
  · intro u
    have hat2 := World.step_teardown_at (w.step (LifecycleOp.teardown t i)) u j _ hj
    exact ⟨_, hat2.1, Session.session_teardown_handle u S _⟩

theorem World.attach_ok (w0 : World) (i : ObjRef) (D : Device) (pid : Nat) (session : Ptr)
    (hD : w0.heap[i]? = some (Obj.device D)) (hlive : D.handle ≠ NULL) :
    ∃ w1, w0.attach i pid session none = some (w1, Except.ok w0.heap.length) ∧
      w1.heap[i]? = some (Obj.device D) ∧
      w1.heap[w0.heap.length]? =
        some (Obj.session ⟨session, D.dispatcher, some ⟨w0.heap.length⟩,
          Delegate.SessionOnDetached w0.heap.length⟩) := by
  have hi : i < w0.heap.length := (List.getElem?_eq_some.1 hD).1
  have hA := Device.Attach_ok D pid session w0.heap.length w0.env hlive
  refine ⟨⟨(Session.ctor w0.heap.length session D.dispatcher
      (w0.env.log (Call.frida_device_attach_sync D.handle pid))).2,
    w0.heap.set i (Obj.device D) ++
      [Obj.session (Session.ctor w0.heap.length session D.dispatcher
        (w0.env.log (Call.frida_device_attach_sync D.handle pid))).1]⟩, ?_, ?_, ?_⟩
  · simp only [World.attach, hD, hA]
  · show (w0.heap.set i (Obj.device D) ++ _)[i]? = _
    rw [List.getElem?_append_left (by simpa using hi), List.getElem?_set]
    simp [hi]
  · show (w0.heap.set i (Obj.device D) ++ _)[w0.heap.length]? = _
    rw [List.getElem?_append_right (by simp)]
    simp [Session.ctor, new_gcroot]

/-- C8: let `D` be a live `Device` at reference `i` and let `Attach` on it succeed with a
non-null native session pointer; the new `Session` `S` sits at a fresh reference, holds
that pointer and the dispatcher of `D`. Tearing `D` down, explicitly or by its finalizer,
leaves every field of `S` as it was and lowers `activeRefs` by exactly one, and `D` ends
with a null handle. `S` is still live: `Pid` returns what the native getter answers,
before and after alike, and no member of `S` throws `ObjectDisposedException`; once `S`
itself is torn down every member of `S` does. -/
theorem parent_disposal_leaves_child (w0 : World) (i : ObjRef) (D : Device) (pid : Nat)
    (session : Ptr) (t : Teardown) (hD : w0.heap[i]? = some (Obj.device D))
    (hlive : D.handle ≠ NULL) (hs : session ≠ NULL) :
    ∃ w1 S, w0.attach i pid session none = some (w1, Except.ok w0.heap.length) ∧
      w1.heap[i]? = some (Obj.device D) ∧
      w1.heap[w0.heap.length]? = some (Obj.session S) ∧
      S.handle = session ∧ S.dispatcher = D.dispatcher ∧
      (w1.step (LifecycleOp.teardown t i)).heap[w0.heap.length]? = some (Obj.session S) ∧
      (w1.step (LifecycleOp.teardown t i)).env.activeRefs = w1.env.activeRefs - 1 ∧
      (∃ D1, (w1.step (LifecycleOp.teardown t i)).heap[i]? = some (Obj.device D1) ∧
        D1.handle = NULL) ∧
      (∀ n, (S.get_Pid n w1.env).out = Except.ok n ∧
        (S.get_Pid n (w1.step (LifecycleOp.teardown t i)).env).out = Except.ok n) ∧
      (∀ op, (S.perform op (w1.step (LifecycleOp.teardown t i)).env).disposed = false) ∧
      (∀ u op, ∃ S1,
        ((w1.step (LifecycleOp.teardown t i)).step
          (LifecycleOp.teardown u w0.heap.length)).heap[w0.heap.length]? =
            some (Obj.session S1) ∧
        (S1.perform op ((w1.step (LifecycleOp.teardown t i)).step
          (LifecycleOp.teardown u w0.heap.length)).env).out =
            Except.error (Exn.ObjectDisposed "Session")) := by
  obtain ⟨w1, h1, h1i, h1j⟩ := World.attach_ok w0 i D pid session hD hlive
  have hSl : (⟨session, D.dispatcher, some ⟨w0.heap.length⟩,
      Delegate.SessionOnDetached w0.heap.length⟩ : Session).handle ≠ NULL := hs
  have hF := World.teardown_parent_frame w1 t i w0.heap.length D _ h1i h1j hlive
  refine ⟨w1, _, h1, h1i, h1j, rfl, rfl, hF.1, hF.2.1, hF.2.2.1, ?_, ?_, ?_⟩
  · intro n
    simp [Session.get_Pid, hs]
  · intro op
    exact Session.session_perform_live _ _ op hSl
  · intro u op
    obtain ⟨S1, hS1, hnull⟩ := hF.2.2.2 u
    exact ⟨S1, hS1, (Session.session_perform_dead S1 _ op hnull).1⟩

/-- C8, the scenario of the spec: attach to pid 100, tear the device down at once, read
`Pid` of the session. -/
theorem parent_disposal_leaves_child_witness :
    ∃ w1 S, (World.step World.init (LifecycleOp.newDevice 7 ⟨1⟩)).attach 0 100 9 none =
        some (w1, Except.ok 1) ∧
      (w1.step (LifecycleOp.teardown Teardown.Dispose 0)).heap[1]? = some (Obj.session S) ∧
      (w1.step (LifecycleOp.teardown Teardown.Dispose 0)).env.activeRefs =
        w1.env.activeRefs - 1 ∧
      (S.get_Pid 100 (w1.step (LifecycleOp.teardown Teardown.Dispose 0)).env).out =
        Except.ok 100 :=
  have h := parent_disposal_leaves_child (World.step World.init (LifecycleOp.newDevice 7 ⟨1⟩))
    0 (Device.ctor 0 7 ⟨1⟩ Env.init).1 100 9 Teardown.Dispose rfl (by decide) (by decide)
  match h with
  | ⟨w1, S, h1, _, _, _, _, h6, h7, _, h9, _⟩ => ⟨w1, S, h1, h6, h7, (h9 100).2⟩

end Frida
